import Mathlib

/-!
Verification development for the LandIS ISO 19139 metadata compliance tools
(`extract_metadata.py`, the loose extraction engine, and `check_conformance.py`,
the strict namespace-aware conformance checker).

Python strings are modelled as Lean `String`; all string algorithms are
implemented over the underlying `List Char` so that concrete evaluation stays
cheap.  XML documents (`xml.etree.ElementTree` trees) are modelled by the
nested inductive `XmlElem`: tag in Clark notation, optional direct text,
ordered children, and the element's tail text (as stored by ElementTree).
-/

set_option maxRecDepth 8192

namespace LandIS

/-- Characters treated as whitespace by Python's `str.strip()` / `str.split()`
(ASCII subset, which is all that occurs in this code base). -/
def isPySpace (c : Char) : Bool :=
  c == ' ' || c == '\t' || c == '\n' || c == '\r' || c == '\x0b' || c == '\x0c'

/-- ASCII decimal digit test (Python `str.isdigit` / `int()` digits, ASCII range). -/
def isAsciiDigit (c : Char) : Bool :=
  decide (48 ≤ c.toNat) && decide (c.toNat ≤ 57)

/-- ASCII uppercase letter test (Python `str.isupper` on ASCII input). -/
def isAsciiUpper (c : Char) : Bool :=
  decide (65 ≤ c.toNat) && decide (c.toNat ≤ 90)

/-- ASCII lowercase letter test. -/
def isAsciiLower (c : Char) : Bool :=
  decide (97 ≤ c.toNat) && decide (c.toNat ≤ 122)

/-- Python `str.lower()` on one ASCII character. -/
def pyLowerChar (c : Char) : Char :=
  if isAsciiUpper c then Char.ofNat (c.toNat + 32) else c

/-- Python `str.upper()` on one ASCII character. -/
def pyUpperChar (c : Char) : Char :=
  if isAsciiLower c then Char.ofNat (c.toNat - 32) else c

/-- `str.strip()` on a character list: drop leading and trailing whitespace. -/
def pyStripChars (l : List Char) : List Char :=
  ((l.dropWhile isPySpace).reverse.dropWhile isPySpace).reverse

/-- `str.strip()` on a string. -/
def pyStrip (s : String) : String :=
  ⟨pyStripChars s.data⟩

/-- `str.lower()` on a string (ASCII). -/
def pyLower (s : String) : String :=
  ⟨s.data.map pyLowerChar⟩

/-- Numeric value of a list of decimal digit characters (most significant first). -/
def digitsVal (l : List Char) : Nat :=
  l.foldl (fun acc c => 10 * acc + (c.toNat - 48)) 0

/-- Python `int(s)` on a string, as used by `resolve_codelist` and
`_build_by_num_from_arcgis`: leading/trailing whitespace is ignored, an
optional sign is accepted, and the remainder must be a non-empty run of
decimal digits (leading zeros allowed).  Returns `none` where Python raises
`ValueError`.  (PEP-515 underscore grouping and non-ASCII digits are not
modelled; no value in this code base uses them.) -/
def pyIntChars (l : List Char) : Option Int :=
  match pyStripChars l with
  | '+' :: rest =>
      if rest ≠ [] && rest.all isAsciiDigit then some (Int.ofNat (digitsVal rest)) else none
  | '-' :: rest =>
      if rest ≠ [] && rest.all isAsciiDigit then some (-(Int.ofNat (digitsVal rest))) else none
  | rest =>
      if rest ≠ [] && rest.all isAsciiDigit then some (Int.ofNat (digitsVal rest)) else none

/-- Python `int(s)` on a `String`. -/
def pyInt (s : String) : Option Int :=
  pyIntChars s.data

/-- Association-list lookup, modelling Python `d[k]` / `k in d` for dicts
whose keys are listed in insertion order. -/
def alookup {α β : Type} [BEq α] : List (α × β) → α → Option β
  | [], _ => none
  | (k, v) :: rest, key => if k == key then some v else alookup rest key

/-- Python dict assignment `d[k] = v`: update the value in place if the key
exists (keeping its position), else append the new binding. -/
def dictInsert {α β : Type} [BEq α] : List (α × β) → α → β → List (α × β)
  | [], key, v => [(key, v)]
  | (k, w) :: rest, key, v =>
      if k == key then (k, v) :: rest else (k, w) :: dictInsert rest key v

/-- Join a list of strings with a separator (Python `sep.join(parts)`). -/
def pyJoin (sep : String) : List String → String
  | [] => ""
  | [x] => x
  | x :: rest => x ++ sep ++ pyJoin sep rest

/-- Truthiness of an optional string (Python `if x:` where `x` is `None` or `str`). -/
def optTruthy : Option String → Bool
  | none => false
  | some s => s ≠ ""

/-! ### The XML document model

A parsed `xml.etree.ElementTree` element: Clark-notation tag, optional direct
text, ordered children, and tail text (ElementTree stores an element's tail on
the element itself). -/

inductive XmlElem : Type where
  | mk (tag : String) (text : Option String) (children : List XmlElem)
      (tail : Option String) : XmlElem
  deriving Repr

/-- The element's tag. -/
def XmlElem.tag : XmlElem → String
  | .mk t _ _ _ => t

/-- The element's direct text. -/
def XmlElem.text : XmlElem → Option String
  | .mk _ tx _ _ => tx

/-- The element's children, in document order. -/
def XmlElem.children : XmlElem → List XmlElem
  | .mk _ _ cs _ => cs

/-- The element's tail text. -/
def XmlElem.tail : XmlElem → Option String
  | .mk _ _ _ tl => tl

/-- Clark-notation tag `{ns}local`, the model of `_tag(ns, local)` in
`check_conformance.py`. -/
def clark (ns loc : String) : String :=
  "\x7b" ++ ns ++ "\x7d" ++ loc

/-- `Element.find(tag)` for a plain Clark tag: first direct child whose tag
matches, or `none`. -/
def etFind (e : XmlElem) (t : String) : Option XmlElem :=
  e.children.find? (fun c => c.tag == t)

mutual
/-- All elements of the subtree rooted at `e`, in document (pre-)order. -/
def subtreePre (e : XmlElem) : List XmlElem :=
  match e with
  | .mk t tx cs tl => .mk t tx cs tl :: subtreeListPre cs
/-- Concatenated preorders of a list of sibling subtrees. -/
def subtreeListPre : List XmlElem → List XmlElem
  | [] => []
  | c :: cs => subtreePre c ++ subtreeListPre cs
end

/-- Proper descendants of `e` in document order: the result set of the
ElementTree path `".//*"` rooted at `e`. -/
def descendants (e : XmlElem) : List XmlElem :=
  subtreeListPre e.children

/-- `e.findall(".//" + t)`: all proper descendants with tag `t`, in document
order. -/
def findallDesc (e : XmlElem) (t : String) : List XmlElem :=
  (descendants e).filter (fun d => d.tag == t)

/-- `e.find(".//" + t)`: first proper descendant with tag `t`. -/
def findDesc (e : XmlElem) (t : String) : Option XmlElem :=
  (findallDesc e t).head?

/-- `e.find(".//" + a + "/" + b)`: first `b`-tagged child of any `a`-tagged
proper descendant, in document order. -/
def findDescChild (e : XmlElem) (a b : String) : Option XmlElem :=
  ((findallDesc e a).flatMap
    (fun p => p.children.filter (fun c => c.tag == b))).head?

/-! ### `check_conformance.py`: strict namespace-aware checker -/

/-- ISO 19139 gmd namespace URI. -/
def GMD : String := "http://www.isotc211.org/2005/gmd"

/-- ISO 19139 gco namespace URI. -/
def GCO : String := "http://www.isotc211.org/2005/gco"

/-- `_find(root, path)`: walk a path of `(namespace, local)` steps by direct
children; `none` if any step fails. -/
def findPath : Option XmlElem → List (String × String) → Option XmlElem
  | r, [] => r
  | none, _ :: _ => none
  | some e, (ns, loc) :: rest => findPath (etFind e (clark ns loc)) rest

/-- `_find_any(root, paths)`: first path that resolves to an element. -/
def findAny (root : XmlElem) : List (List (String × String)) → Option XmlElem
  | [] => none
  | p :: rest =>
      match findPath (some root) p with
      | some el => some el
      | none => findAny root rest

/-- Helper for `_get_text`: fragments contributed by an optional text, which
Python appends only when truthy (non-`None` and non-empty). -/
def optListStr : Option String → List String
  | none => []
  | some t => if t ≠ "" then [t] else []

mutual
/-- `_get_text(element)` on a non-`None` element: the element's own text and,
for each child in order, the child's `_get_text` followed by the child's tail
text, all joined with single spaces and stripped at the ends.  No entity
decoding, tag stripping, or internal whitespace collapsing happens here. -/
def getTextS : XmlElem → String
  | .mk _ tx cs _ => pyStrip (pyJoin " " (optListStr tx ++ strictParts cs))
/-- The fragments contributed by a list of children in `_get_text`. -/
def strictParts : List XmlElem → List String
  | [] => []
  | c :: cs => (getTextS c :: optListStr c.tail) ++ strictParts cs
end

/-- `_get_text` including the `element is None` case. -/
def getTextSOpt : Option XmlElem → String
  | none => ""
  | some e => getTextS e

/-- `_has_value(element)` for a non-`None` element. -/
def hasValue (e : XmlElem) : Bool :=
  getTextS e ≠ ""

/-- `element is not None and _has_value(element)`, a pattern used by several
finders. -/
def optHasValue : Option XmlElem → Bool
  | none => false
  | some e => hasValue e

/-- `_check_single(paths, root)`. -/
def checkSingle (paths : List (List (String × String))) (root : XmlElem) : String :=
  match findAny root paths with
  | none => "Absent"
  | some el => if hasValue el then "Present" else "Empty"

/-- The bounding-box parent container path (`base` in `_check_bbox`). -/
def bboxBase : List (String × String) :=
  [(GMD, "identificationInfo"), (GMD, "MD_DataIdentification"), (GMD, "extent"),
   (GMD, "EX_Extent"), (GMD, "geographicElement"), (GMD, "EX_GeographicBoundingBox")]

/-- The four directional sub-elements, in the order `_check_bbox` visits them. -/
def bboxComps : List String :=
  ["westBoundLongitude", "eastBoundLongitude", "southBoundLatitude", "northBoundLatitude"]

/-- The loop of `_check_bbox`: at the first component that is missing return
"Absent", at the first that resolves without content return "Empty";
"Present" when every component is present with content. -/
def checkBboxGo (root : XmlElem) : List String → String
  | [] => "Present"
  | comp :: rest =>
      match findPath (some root) (bboxBase ++ [(GMD, comp)]) with
      | none => "Absent"
      | some el => if hasValue el then checkBboxGo root rest else "Empty"

/-- `_check_bbox(root)`. -/
def checkBbox (root : XmlElem) : String :=
  checkBboxGo root bboxComps

/-- The `identificationInfo/MD_DataIdentification` anchor used by several
finders. -/
def idInfoPath : List (String × String) :=
  [(GMD, "identificationInfo"), (GMD, "MD_DataIdentification")]

/-- `_check_keywords(root)`. -/
def checkKeywords (root : XmlElem) : String :=
  match findPath (some root) idInfoPath with
  | none => "Absent"
  | some idInfo =>
      if (findallDesc idInfo (clark GMD "descriptiveKeywords")).any
          (fun kc => (findallDesc kc (clark GMD "keyword")).any hasValue)
      then "Present" else "Empty"

/-- `_check_use_limitation(root)`. -/
def checkUseLimitation (root : XmlElem) : String :=
  match findPath (some root) idInfoPath with
  | none => "Absent"
  | some idInfo =>
      if (findallDesc idInfo (clark GMD "useLimitation")).any hasValue then "Present"
      else if (findDesc idInfo (clark GMD "useLimitation")).isSome then "Empty"
      else "Absent"

/-- `_check_access_constraints(root)`. -/
def checkAccessConstraints (root : XmlElem) : String :=
  match findPath (some root) idInfoPath with
  | none => "Absent"
  | some idInfo =>
      let ac := findDescChild idInfo (clark GMD "MD_LegalConstraints")
        (clark GMD "accessConstraints")
      if optHasValue ac then "Present"
      else
        let restrict := findDesc idInfo (clark GMD "accessConstraints")
        if optHasValue restrict then "Present"
        else if ac.isSome || restrict.isSome then "Empty" else "Absent"

/-- `_check_other_constraints(root)`. -/
def checkOtherConstraints (root : XmlElem) : String :=
  match findPath (some root) idInfoPath with
  | none => "Absent"
  | some idInfo =>
      match findDesc idInfo (clark GMD "otherConstraints") with
      | none => "Absent"
      | some other => if hasValue other then "Present" else "Empty"

/-- `_check_distribution_linkage(root)`. -/
def checkDistributionLinkage (root : XmlElem) : String :=
  match findPath (some root) [(GMD, "distributionInfo"), (GMD, "MD_Distribution")] with
  | none => "Absent"
  | some dist =>
      if (findallDesc dist (clark GMD "onLine")).any (fun ol =>
          match etFind ol (clark GMD "CI_OnlineResource") with
          | none => false
          | some res => optHasValue (etFind res (clark GMD "linkage")))
      then "Present"
      else if (findDesc dist (clark GMD "linkage")).isSome then "Empty"
      else "Absent"

/-- `_check_conformance_spec_and_pass(root)`. -/
def checkConformanceSpecAndPass (root : XmlElem) : String :=
  match findPath (some root) [(GMD, "dataQualityInfo"), (GMD, "DQ_DataQuality")] with
  | none => "Absent"
  | some dq =>
      match findDesc dq (clark GMD "DQ_ConformanceResult") with
      | none => "Absent"
      | some result =>
          match findDescChild result (clark GMD "specification") (clark GMD "CI_Citation") with
          | none => "Empty"
          | some spec =>
              if optHasValue (etFind spec (clark GMD "title")) then
                if optHasValue (findDesc result (clark GCO "pass")) then "Present"
                else "Empty"
              else "Empty"

/-- A conformance check: display name, obligation, and finder.  A Python
finder is a callable that may raise; it is modelled as returning
`Except Unit String`, where `.error` stands for a raised exception. -/
def ConfCheck : Type := String × String × (XmlElem → Except Unit String)

/-- `_conformance_checks()`: the fixed catalog of 32 checks, in source order.
Every catalogued finder is total, so each is wrapped as `.ok`. -/
def conformanceChecks : List ConfCheck := [
  ("Resource Title", "mandatory",
    fun r => .ok (checkSingle [[(GMD, "identificationInfo"), (GMD, "MD_DataIdentification"), (GMD, "citation"), (GMD, "CI_Citation"), (GMD, "title")]] r)),
  ("Abstract", "mandatory",
    fun r => .ok (checkSingle [[(GMD, "identificationInfo"), (GMD, "MD_DataIdentification"), (GMD, "abstract")]] r)),
  ("Topic Category", "mandatory",
    fun r => .ok (checkSingle [[(GMD, "identificationInfo"), (GMD, "MD_DataIdentification"), (GMD, "topicCategory"), (GMD, "MD_TopicCategoryCode")]] r)),
  ("Keywords", "mandatory",
    fun r => .ok (checkKeywords r)),
  ("Geographic bounding box", "mandatory",
    fun r => .ok (checkBbox r)),
  ("Data Language", "mandatory",
    fun r => .ok (checkSingle [[(GMD, "identificationInfo"), (GMD, "MD_DataIdentification"), (GMD, "language")]] r)),
  ("Scale Denominator", "mandatory",
    fun r => .ok (checkSingle [[(GMD, "identificationInfo"), (GMD, "MD_DataIdentification"), (GMD, "spatialResolution"), (GMD, "MD_Resolution"), (GMD, "equivalentScale"), (GMD, "MD_RepresentativeFraction"), (GMD, "denominator")]] r)),
  ("Contact Organisation Name", "mandatory",
    fun r => .ok (checkSingle [[(GMD, "contact"), (GMD, "CI_ResponsibleParty"), (GMD, "organisationName")]] r)),
  ("Contact Email Address", "mandatory",
    fun r => .ok (checkSingle [[(GMD, "contact"), (GMD, "CI_ResponsibleParty"), (GMD, "contactInfo"), (GMD, "CI_Contact"), (GMD, "address"), (GMD, "CI_Address"), (GMD, "electronicMailAddress")]] r)),
  ("Contact Role", "mandatory",
    fun r => .ok (checkSingle [[(GMD, "contact"), (GMD, "CI_ResponsibleParty"), (GMD, "role")]] r)),
  ("Distribution Online Resource Linkage", "mandatory",
    fun r => .ok (checkDistributionLinkage r)),
  ("Lineage Statement", "mandatory",
    fun r => .ok (checkSingle [[(GMD, "dataQualityInfo"), (GMD, "DQ_DataQuality"), (GMD, "lineage"), (GMD, "LI_Lineage"), (GMD, "statement")]] r)),
  ("Data Quality Scope Level", "mandatory",
    fun r => .ok (checkSingle [[(GMD, "dataQualityInfo"), (GMD, "DQ_DataQuality"), (GMD, "scope"), (GMD, "DQ_Scope"), (GMD, "level")]] r)),
  ("Conformance Specification Title", "mandatory",
    fun r => .ok (checkSingle [[(GMD, "dataQualityInfo"), (GMD, "DQ_DataQuality"), (GMD, "report"), (GMD, "DQ_DomainConsistency"), (GMD, "result"), (GMD, "DQ_ConformanceResult"), (GMD, "specification"), (GMD, "CI_Citation"), (GMD, "title")]] r)),
  ("Conformance Pass", "mandatory",
    fun r => .ok (checkSingle [[(GMD, "dataQualityInfo"), (GMD, "DQ_DataQuality"), (GMD, "report"), (GMD, "DQ_DomainConsistency"), (GMD, "result"), (GMD, "DQ_ConformanceResult"), (GMD, "pass")]] r)),
  ("Metadata Language Code", "mandatory",
    fun r => .ok (checkSingle [[(GMD, "language")]] r)),
  ("Metadata Date Stamp", "mandatory",
    fun r => .ok (checkSingle [[(GMD, "dateStamp")]] r)),
  ("Metadata Scope Code", "mandatory",
    fun r => .ok (checkSingle [[(GMD, "hierarchyLevel")]] r)),
  ("Access Constraints", "mandatory",
    fun r => .ok (checkAccessConstraints r)),
  ("Other Constraints", "mandatory",
    fun r => .ok (checkOtherConstraints r)),
  ("Use Limitation", "mandatory",
    fun r => .ok (checkUseLimitation r)),
  ("Publication Date", "conditional",
    fun r => .ok (checkSingle [[(GMD, "identificationInfo"), (GMD, "MD_DataIdentification"), (GMD, "citation"), (GMD, "CI_Citation"), (GMD, "date"), (GMD, "CI_Date"), (GMD, "date")]] r)),
  ("Reference System Code", "conditional",
    fun r => .ok (checkSingle [[(GMD, "referenceSystemInfo"), (GMD, "MD_ReferenceSystem"), (GMD, "referenceSystemIdentifier"), (GMD, "RS_Identifier"), (GMD, "code")]] r)),
  ("Reference System Code Space", "conditional",
    fun r => .ok (checkSingle [[(GMD, "referenceSystemInfo"), (GMD, "MD_ReferenceSystem"), (GMD, "referenceSystemIdentifier"), (GMD, "RS_Identifier"), (GMD, "codeSpace")]] r)),
  ("File Identifier", "optional",
    fun r => .ok (checkSingle [[(GMD, "fileIdentifier")]] r)),
  ("Metadata Standard Name", "optional",
    fun r => .ok (checkSingle [[(GMD, "metadataStandardName")]] r)),
  ("Metadata Standard Version", "optional",
    fun r => .ok (checkSingle [[(GMD, "metadataStandardVersion")]] r)),
  ("Purpose", "optional",
    fun r => .ok (checkSingle [[(GMD, "identificationInfo"), (GMD, "MD_DataIdentification"), (GMD, "purpose")]] r)),
  ("Credit", "optional",
    fun r => .ok (checkSingle [[(GMD, "identificationInfo"), (GMD, "MD_DataIdentification"), (GMD, "credit")]] r)),
  ("Status", "optional",
    fun r => .ok (checkSingle [[(GMD, "identificationInfo"), (GMD, "MD_DataIdentification"), (GMD, "status")]] r)),
  ("Maintenance Frequency", "optional",
    fun r => .ok (checkSingle [[(GMD, "identificationInfo"), (GMD, "MD_DataIdentification"), (GMD, "resourceMaintenance"), (GMD, "MD_MaintenanceInformation"), (GMD, "maintenanceAndUpdateFrequency")]] r)),
  ("Graphic Overview", "optional",
    fun r => .ok (checkSingle [[(GMD, "identificationInfo"), (GMD, "MD_DataIdentification"), (GMD, "graphicOverview"), (GMD, "MD_BrowseGraphic"), (GMD, "fileName")]] r))
]

/-- The value `check_one_file` records for one check: the finder's result,
with a raised exception caught and mapped to "Absent" (the `try/except`
around `finder(root)`). -/
def finderResult (chk : ConfCheck) (root : XmlElem) : String :=
  match chk.2.2 root with
  | .ok v => v
  | .error _ => "Absent"

/-- `check_one_file(xml_path, checks)`.  The parsed file is modelled as
`Option XmlElem` (`none` = `ET.ParseError`).  Returns `none` when the file
does not parse or its root is not `gmd:MD_Metadata`; otherwise one
Present/Empty/Absent entry per check. -/
def checkOneFile (parsed : Option XmlElem) (checks : List ConfCheck) :
    Option (List (String × String)) :=
  match parsed with
  | none => none
  | some root =>
      if root.tag ≠ clark GMD "MD_Metadata" then none
      else some (checks.foldl (fun res chk =>
        dictInsert res chk.1 (finderResult chk root)) [])

/-- The reason string recorded for a skipped file in `process_folder`. -/
def skipReason : String :=
  "Not ISO 19139 namespaced (root is not gmd:MD_Metadata)"

/-- The per-file loop of `process_folder(folder_path, checks)`.  The folder is
modelled as its sorted list of (filename, parse result) pairs; the
folder-existence and empty-folder early returns are I/O shape outside this
loop.  Returns `(results, errors)`. -/
def processFolder (files : List (String × Option XmlElem)) (checks : List ConfCheck) :
    List (String × List (String × String)) × List (String × String) :=
  files.foldl
    (fun acc file =>
      match checkOneFile file.2 checks with
      | none => (acc.1, acc.2 ++ [(file.1, skipReason)])
      | some row => (dictInsert acc.1 file.1 row, acc.2))
    ([], [])

/-! ### String helpers for the codelist machinery (`extract_metadata.py`) -/

/-- Is the first character of the list `c`? -/
def headIs (c : Char) : List Char → Bool
  | [] => false
  | x :: _ => x == c

/-- Does `p` occur as a leading segment of `l`? -/
def leadsWith : List Char → List Char → Bool
  | [], _ => true
  | _ :: _, [] => false
  | p :: ps, c :: cs => p == c && leadsWith ps cs

/-- Python `pat in s`: does `pat` occur as a contiguous subsequence of `l`? -/
def containsSeq (pat : List Char) : List Char → Bool
  | [] => pat.isEmpty
  | c :: rest => leadsWith pat (c :: rest) || containsSeq pat rest

/-- Python `s.startswith(t)`. -/
def pyStartsWith (s t : String) : Bool :=
  leadsWith t.data s.data

/-- The part of `l` after its last `'/'` (Python `s.split("/")[-1]`). -/
def afterLastSlash (l : List Char) : List Char :=
  (l.reverse.takeWhile (fun c => c ≠ '/')).reverse

/-- Python `s.replace("  ", " ")`: left-to-right, non-overlapping. -/
def replaceDoubleSpace : List Char → List Char
  | [] => []
  | ' ' :: ' ' :: rest => ' ' :: replaceDoubleSpace rest
  | c :: rest => c :: replaceDoubleSpace rest

/-- `_normalise_code(s)`: remove whitespace/hyphens/slashes, lowercase, keep
what precedes the first `'('`, strip. -/
def normaliseCode (s : String) : String :=
  ⟨pyStripChars
    (((s.data.filter (fun c => !(isPySpace c || c == '-' || c == '/'))).map
        pyLowerChar).takeWhile (fun c => c ≠ '('))⟩

/-- The character-building loop of `_format_code_as_label`: `outRev` is the
accumulated output, most recent character first. -/
def formatLoop : List Char → Nat → List Char → List Char
  | [], _, outRev => outRev
  | c :: rest, i, outRev =>
      if isAsciiUpper c && i ≠ 0 then
        formatLoop rest (i + 1) (c :: ' ' :: outRev)
      else
        formatLoop rest (i + 1)
          ((if i == 0 || headIs ' ' outRev then pyUpperChar c else pyLowerChar c) :: outRev)

/-- `_format_code_as_label(std_code)`: turn a camelCase or lowercase code name
into a display label (UK spelling for "license", reserved slots to
"Reserved"). -/
def formatCodeAsLabel (stdCode : String) : String :=
  let s := pyStripChars stdCode.data
  if headIs '(' s && containsSeq "reserved".data (s.map pyLowerChar) then "Reserved"
  else
    let s := if s.contains '/' then afterLastSlash s else s
    let result := pyStripChars (replaceDoubleSpace (formatLoop s 0 []).reverse)
    if result.map pyLowerChar == "license".data then "Licence" else ⟨result⟩

/-- `_build_by_num_from_arcgis(codelist_name, by_name, arcgis_coded_values)`:
build the number -> label table for one codelist from the reference rows. -/
def buildByNum (codelistName : String) (byName : List (String × String))
    (rows : List (String × String × String)) : List (Int × String) :=
  rows.foldl
    (fun byNum row =>
      if row.1 == codelistName then
        match pyInt row.2.1 with
        | none => byNum
        | some num =>
            let key := normaliseCode row.2.2
            match (if key ≠ "" then alookup byName key else none) with
            | some lbl => dictInsert byNum num lbl
            | none => dictInsert byNum num (formatCodeAsLabel row.2.2)
      else byNum)
    []

/-! ### `extract_metadata.py`: codelist registry -/

/-- `_get_inlined_arcgis_coded_values()`: the bundled
(codelist_name, arc_code, std_code) reference rows, used because the optional
external spreadsheet is not part of this repository. -/
def inlinedArcgisCodedValues : List (String × String × String) := [
  ("CI_PresentationFormCode", "001", "documentDigital"),
  ("CI_PresentationFormCode", "002", "documentHardcopy"),
  ("CI_PresentationFormCode", "003", "imageDigital"),
  ("CI_PresentationFormCode", "004", "imageHardcopy"),
  ("CI_PresentationFormCode", "005", "mapDigital"),
  ("CI_PresentationFormCode", "006", "mapHardcopy"),
  ("CI_PresentationFormCode", "007", "modelDigital"),
  ("CI_PresentationFormCode", "008", "modelHardcopy"),
  ("CI_PresentationFormCode", "009", "profileDigital"),
  ("CI_PresentationFormCode", "010", "profileHardcopy"),
  ("CI_PresentationFormCode", "011", "tableDigital"),
  ("CI_PresentationFormCode", "012", "tableHardcopy"),
  ("CI_PresentationFormCode", "013", "videoDigital"),
  ("CI_PresentationFormCode", "014", "videoHardcopy"),
  ("CI_PresentationFormCode", "015", "audioDigital"),
  ("CI_PresentationFormCode", "016", "audioHardcopy"),
  ("CI_PresentationFormCode", "017", "multimediaDigital"),
  ("CI_PresentationFormCode", "018", "multimediaHardcopy"),
  ("CI_PresentationFormCode", "019", "diagramDigital"),
  ("CI_PresentationFormCode", "020", "diagramHardcopy"),
  ("CI_PresentationFormCode", "021", "physicalObject"),
  ("CI_RoleCode", "001", "resourceProvider"),
  ("CI_RoleCode", "002", "custodian"),
  ("CI_RoleCode", "003", "owner"),
  ("CI_RoleCode", "004", "user"),
  ("CI_RoleCode", "005", "distributor"),
  ("CI_RoleCode", "006", "originator"),
  ("CI_RoleCode", "007", "pointOfContact"),
  ("CI_RoleCode", "008", "principalInvestigator"),
  ("CI_RoleCode", "009", "processor"),
  ("CI_RoleCode", "010", "publisher"),
  ("CI_RoleCode", "011", "author"),
  ("CI_RoleCode", "012", "collaborator"),
  ("CI_RoleCode", "013", "editor"),
  ("CI_RoleCode", "014", "mediator"),
  ("CI_RoleCode", "015", "rightsHolder"),
  ("CI_RoleCode", "016", "sponsor"),
  ("CI_RoleCode", "017", "coAuthor"),
  ("CI_RoleCode", "018", "contributor"),
  ("CI_RoleCode", "019", "funder"),
  ("CI_RoleCode", "020", "stakeholder"),
  ("MD_MaintenanceFrequencyCode", "001", "continual"),
  ("MD_MaintenanceFrequencyCode", "002", "daily"),
  ("MD_MaintenanceFrequencyCode", "003", "weekly"),
  ("MD_MaintenanceFrequencyCode", "004", "fortnightly"),
  ("MD_MaintenanceFrequencyCode", "005", "monthly"),
  ("MD_MaintenanceFrequencyCode", "006", "quarterly"),
  ("MD_MaintenanceFrequencyCode", "007", "biannually"),
  ("MD_MaintenanceFrequencyCode", "008", "annually"),
  ("MD_MaintenanceFrequencyCode", "009", "asNeeded"),
  ("MD_MaintenanceFrequencyCode", "010", "irregular"),
  ("MD_MaintenanceFrequencyCode", "011", "notPlanned"),
  ("MD_MaintenanceFrequencyCode", "012", "unknown"),
  ("MD_MaintenanceFrequencyCode", "013", "semimonthly"),
  ("MD_MaintenanceFrequencyCode", "014", "periodic"),
  ("MD_MaintenanceFrequencyCode", "015", "biennially"),
  ("MD_ProgressCode", "001", "completed"),
  ("MD_ProgressCode", "002", "historicalArchive"),
  ("MD_ProgressCode", "003", "obsolete"),
  ("MD_ProgressCode", "004", "onGoing"),
  ("MD_ProgressCode", "005", "planned"),
  ("MD_ProgressCode", "006", "required"),
  ("MD_ProgressCode", "007", "underDevelopment"),
  ("MD_ProgressCode", "008", "proposed"),
  ("MD_ProgressCode", "009", "final"),
  ("MD_ProgressCode", "010", "pending"),
  ("MD_ProgressCode", "011", "retired"),
  ("MD_ProgressCode", "012", "superseded"),
  ("MD_ProgressCode", "013", "tentative"),
  ("MD_ProgressCode", "014", "valid"),
  ("MD_ProgressCode", "015", "accepted"),
  ("MD_ProgressCode", "016", "notAccepted"),
  ("MD_ProgressCode", "017", "withdrawn"),
  ("MD_ProgressCode", "018", "deprecated"),
  ("MD_RestrictionCode", "001", "copyright"),
  ("MD_RestrictionCode", "002", "patent"),
  ("MD_RestrictionCode", "003", "patentPending"),
  ("MD_RestrictionCode", "004", "trademark"),
  ("MD_RestrictionCode", "005", "license"),
  ("MD_RestrictionCode", "006", "intellectualPropertyRights"),
  ("MD_RestrictionCode", "007", "restricted"),
  ("MD_RestrictionCode", "008", "otherRestrictions"),
  ("MD_RestrictionCode", "009", "licenseUnrestricted"),
  ("MD_RestrictionCode", "010", "licenseEndUser"),
  ("MD_RestrictionCode", "011", "licenseDistributor"),
  ("MD_RestrictionCode", "012", "privacy"),
  ("MD_RestrictionCode", "013", "statutory"),
  ("MD_RestrictionCode", "014", "confidential"),
  ("MD_RestrictionCode", "015", "sensitivity/sensitiveButUnclassified"),
  ("MD_RestrictionCode", "016", "unrestricted"),
  ("MD_RestrictionCode", "017", "in-confidence"),
  ("MD_ScopeCode", "001", "attribute"),
  ("MD_ScopeCode", "002", "attributeType"),
  ("MD_ScopeCode", "003", "collectionHardware"),
  ("MD_ScopeCode", "004", "collectionSession"),
  ("MD_ScopeCode", "005", "dataset"),
  ("MD_ScopeCode", "006", "series"),
  ("MD_ScopeCode", "007", "nonGeographicDataset"),
  ("MD_ScopeCode", "008", "dimensionGroup"),
  ("MD_ScopeCode", "009", "feature"),
  ("MD_ScopeCode", "010", "featureType"),
  ("MD_ScopeCode", "011", "propertyType"),
  ("MD_ScopeCode", "012", "fieldSession"),
  ("MD_ScopeCode", "013", "software"),
  ("MD_ScopeCode", "014", "service"),
  ("MD_ScopeCode", "015", "model"),
  ("MD_ScopeCode", "016", "tile"),
  ("MD_ScopeCode", "017", "initiative"),
  ("MD_ScopeCode", "018", "stereomate"),
  ("MD_ScopeCode", "019", "sensor"),
  ("MD_ScopeCode", "020", "platformSeries"),
  ("MD_ScopeCode", "021", "sensorSeries"),
  ("MD_ScopeCode", "022", "productionSeries"),
  ("MD_ScopeCode", "023", "transferAggregate"),
  ("MD_ScopeCode", "024", "otherAggregate"),
  ("MD_ScopeCode", "025", "metadata"),
  ("MD_ScopeCode", "026", "sample"),
  ("MD_ScopeCode", "027", "document"),
  ("MD_ScopeCode", "028", "repository"),
  ("MD_ScopeCode", "029", "aggregate"),
  ("MD_ScopeCode", "030", "product"),
  ("MD_ScopeCode", "031", "collection"),
  ("MD_ScopeCode", "032", "coverage"),
  ("MD_ScopeCode", "033", "application"),
  ("MD_SpatialRepresentationTypeCode", "001", "vector"),
  ("MD_SpatialRepresentationTypeCode", "002", "grid"),
  ("MD_SpatialRepresentationTypeCode", "003", "textTable"),
  ("MD_SpatialRepresentationTypeCode", "004", "tin"),
  ("MD_SpatialRepresentationTypeCode", "005", "stereoModel"),
  ("MD_SpatialRepresentationTypeCode", "006", "video"),
  ("MD_TopicCategoryCode", "001", "farming"),
  ("MD_TopicCategoryCode", "002", "biota"),
  ("MD_TopicCategoryCode", "003", "boundaries"),
  ("MD_TopicCategoryCode", "004", "climatologyMeteorologyAtmosphere"),
  ("MD_TopicCategoryCode", "005", "economy"),
  ("MD_TopicCategoryCode", "006", "elevation"),
  ("MD_TopicCategoryCode", "007", "environment"),
  ("MD_TopicCategoryCode", "008", "geoscientificInformation"),
  ("MD_TopicCategoryCode", "009", "health"),
  ("MD_TopicCategoryCode", "010", "imageryBaseMapsEarthCover"),
  ("MD_TopicCategoryCode", "011", "intelligenceMilitary"),
  ("MD_TopicCategoryCode", "012", "inlandWaters"),
  ("MD_TopicCategoryCode", "013", "location"),
  ("MD_TopicCategoryCode", "014", "oceans"),
  ("MD_TopicCategoryCode", "015", "planningCadastre"),
  ("MD_TopicCategoryCode", "016", "society"),
  ("MD_TopicCategoryCode", "017", "structure"),
  ("MD_TopicCategoryCode", "018", "transportation"),
  ("MD_TopicCategoryCode", "019", "utilitiesCommunication"),
  ("MD_TopicCategoryCode", "020", "extraTerrestrial"),
  ("MD_TopicCategoryCode", "021", "disaster"),
  ("MD_TopologyLevelCode", "001", "geometryOnly"),
  ("MD_TopologyLevelCode", "002", "topology1D"),
  ("MD_TopologyLevelCode", "003", "planarGraph"),
  ("MD_TopologyLevelCode", "004", "fullPlanarGraph"),
  ("MD_TopologyLevelCode", "005", "surfaceGraph"),
  ("MD_TopologyLevelCode", "006", "fullSurfaceGraph"),
  ("MD_TopologyLevelCode", "007", "topology3D"),
  ("MD_TopologyLevelCode", "008", "fullTopology3D"),
  ("MD_TopologyLevelCode", "009", "abstract"),
  ("MD_CharacterSetCode", "001", "ucs2"),
  ("MD_CharacterSetCode", "002", "ucs4"),
  ("MD_CharacterSetCode", "003", "utf7"),
  ("MD_CharacterSetCode", "004", "utf8"),
  ("MD_CharacterSetCode", "005", "utf16"),
  ("MD_CharacterSetCode", "006", "8859part1"),
  ("MD_CharacterSetCode", "007", "8859part2"),
  ("MD_CharacterSetCode", "008", "8859part3"),
  ("MD_CharacterSetCode", "009", "8859part4"),
  ("MD_CharacterSetCode", "010", "8859part5"),
  ("MD_CharacterSetCode", "011", "8859part6"),
  ("MD_CharacterSetCode", "012", "8859part7"),
  ("MD_CharacterSetCode", "013", "8859part8"),
  ("MD_CharacterSetCode", "014", "8859part9"),
  ("MD_CharacterSetCode", "015", "8859part10"),
  ("MD_CharacterSetCode", "016", "8859part11"),
  ("MD_CharacterSetCode", "017", "(reserved for future use)"),
  ("MD_CharacterSetCode", "018", "8859part13"),
  ("MD_CharacterSetCode", "019", "8859part14"),
  ("MD_CharacterSetCode", "020", "8859part15"),
  ("MD_CharacterSetCode", "021", "8859part16"),
  ("MD_CharacterSetCode", "022", "jis"),
  ("MD_CharacterSetCode", "023", "shiftJIS"),
  ("MD_CharacterSetCode", "024", "eucJP"),
  ("MD_CharacterSetCode", "025", "usAscii"),
  ("MD_CharacterSetCode", "026", "ebcdic"),
  ("MD_CharacterSetCode", "027", "eucKR"),
  ("MD_CharacterSetCode", "028", "big5"),
  ("MD_CharacterSetCode", "029", "GB2312"),
  ("MD_GeometricObjectTypeCode", "001", "complex"),
  ("MD_GeometricObjectTypeCode", "002", "composite"),
  ("MD_GeometricObjectTypeCode", "003", "curve"),
  ("MD_GeometricObjectTypeCode", "004", "point"),
  ("MD_GeometricObjectTypeCode", "005", "solid"),
  ("MD_GeometricObjectTypeCode", "006", "surface")
]

/-- The `by_name` table of `_codelist_restriction()`. -/
def codelistRestrictionByName : List (String × String) := [
  ("copyright", "Copyright"),
  ("patent", "Patent"),
  ("patentpending", "Patent pending"),
  ("trademark", "Trademark"),
  ("license", "Licence"),
  ("licence", "Licence"),
  ("intellectualpropertyrights", "Intellectual property rights"),
  ("restricted", "Restricted"),
  ("otherrestrictions", "Other restrictions"),
  ("unrestricted", "Unrestricted"),
  ("licenceunrestricted", "Licence unrestricted"),
  ("licenceenduser", "Licence end user"),
  ("licencedistributor", "Licence distributor"),
  ("private", "Private"),
  ("privacy", "Private"),
  ("statutory", "Statutory"),
  ("confidential", "Confidential"),
  ("sbu", "Sensitive but unclassified"),
  ("sensitivebutunclassified", "Sensitive but unclassified"),
  ("in-confidence", "In confidence")]

/-- `_codelist_restriction()`: (by_name, by_num) with by_num built from the inlined ArcGIS rows. -/
def codelistRestriction : List (String × String) × List (Int × String) :=
  (codelistRestrictionByName, buildByNum "MD_RestrictionCode" codelistRestrictionByName inlinedArcgisCodedValues)

/-- The `by_name` table of `_codelist_role()`. -/
def codelistRoleByName : List (String × String) := [
  ("resourceprovider", "Resource provider"),
  ("custodian", "Custodian"),
  ("owner", "Owner"),
  ("sponsor", "Sponsor"),
  ("user", "User"),
  ("distributor", "Distributor"),
  ("originator", "Originator"),
  ("pointofcontact", "Point of contact"),
  ("principalinvestigator", "Principal investigator"),
  ("processor", "Processor"),
  ("publisher", "Publisher"),
  ("author", "Author"),
  ("coauthor", "Co-author"),
  ("collaborator", "Collaborator"),
  ("editor", "Editor"),
  ("mediator", "Mediator"),
  ("rightsholder", "Rights holder"),
  ("contributor", "Contributor"),
  ("funder", "Funder"),
  ("stakeholder", "Stakeholder")]

/-- `_codelist_role()`: (by_name, by_num) with by_num built from the inlined ArcGIS rows. -/
def codelistRole : List (String × String) × List (Int × String) :=
  (codelistRoleByName, buildByNum "CI_RoleCode" codelistRoleByName inlinedArcgisCodedValues)

/-- The `by_name` table of `_codelist_progress()`. -/
def codelistProgressByName : List (String × String) := [
  ("completed", "Completed"),
  ("historicalarchive", "Historical archive"),
  ("obsolete", "Obsolete"),
  ("ongoing", "On-going"),
  ("planned", "Planned"),
  ("required", "Required"),
  ("underdevelopment", "Under development"),
  ("final", "Final"),
  ("pending", "Pending"),
  ("retired", "Retired"),
  ("superseded", "Superseded"),
  ("tentative", "Tentative"),
  ("valid", "Valid"),
  ("accepted", "Accepted"),
  ("notaccepted", "Not accepted"),
  ("withdrawn", "Withdrawn"),
  ("proposed", "Proposed"),
  ("deprecated", "Deprecated")]

/-- `_codelist_progress()`: (by_name, by_num) with by_num built from the inlined ArcGIS rows. -/
def codelistProgress : List (String × String) × List (Int × String) :=
  (codelistProgressByName, buildByNum "MD_ProgressCode" codelistProgressByName inlinedArcgisCodedValues)

/-- The `by_name` table of `_codelist_maintenance_frequency()`. -/
def codelistMaintenanceFrequencyByName : List (String × String) := [
  ("continual", "Continual"),
  ("daily", "Daily"),
  ("weekly", "Weekly"),
  ("fortnightly", "Fortnightly"),
  ("monthly", "Monthly"),
  ("quarterly", "Quarterly"),
  ("biannually", "Biannually"),
  ("annually", "Annually"),
  ("asneeded", "As needed"),
  ("irregular", "Irregular"),
  ("notplanned", "Not planned"),
  ("unknown", "Unknown"),
  ("semimonthly", "Semi-monthly"),
  ("periodic", "Periodic"),
  ("biennially", "Biennially")]

/-- `_codelist_maintenance_frequency()`: (by_name, by_num) with by_num built from the inlined ArcGIS rows. -/
def codelistMaintenanceFrequency : List (String × String) × List (Int × String) :=
  (codelistMaintenanceFrequencyByName, buildByNum "MD_MaintenanceFrequencyCode" codelistMaintenanceFrequencyByName inlinedArcgisCodedValues)

/-- The `by_name` table of `_codelist_topic_category()`. -/
def codelistTopicCategoryByName : List (String × String) := [
  ("farming", "Farming"),
  ("biota", "Biota"),
  ("boundaries", "Boundaries"),
  ("climatologymeteorologyatmosphere", "Climatology, meteorology, atmosphere"),
  ("economy", "Economy"),
  ("elevation", "Elevation"),
  ("environment", "Environment"),
  ("geoscientificinformation", "Geoscientific information"),
  ("health", "Health"),
  ("imagerybasemapsearthcover", "Imagery, base maps, earth cover"),
  ("intelligencemilitary", "Intelligence, military"),
  ("inlandwaters", "Inland waters"),
  ("location", "Location"),
  ("oceans", "Oceans"),
  ("planningcadastre", "Planning, cadastre"),
  ("society", "Society"),
  ("structure", "Structure"),
  ("transportation", "Transportation"),
  ("utilitiescommunication", "Utilities, communication"),
  ("extraterrestrial", "Extra-terrestrial"),
  ("disaster", "Disaster")]

/-- `_codelist_topic_category()`: (by_name, by_num) with by_num built from the inlined ArcGIS rows. -/
def codelistTopicCategory : List (String × String) × List (Int × String) :=
  (codelistTopicCategoryByName, buildByNum "MD_TopicCategoryCode" codelistTopicCategoryByName inlinedArcgisCodedValues)

/-- The `by_name` table of `_codelist_scope()`. -/
def codelistScopeByName : List (String × String) := [
  ("attribute", "Attribute"),
  ("attributetype", "Attribute type"),
  ("collectionhardware", "Collection hardware"),
  ("collectionsession", "Collection session"),
  ("dataset", "Dataset"),
  ("series", "Series"),
  ("nongeographicdataset", "Non-geographic dataset"),
  ("dimensiongroup", "Dimension group"),
  ("feature", "Feature"),
  ("featuretype", "Feature type"),
  ("propertytype", "Property type"),
  ("fieldsession", "Field session"),
  ("software", "Software"),
  ("service", "Service"),
  ("model", "Model"),
  ("tile", "Tile"),
  ("metadata", "Metadata"),
  ("initiative", "Initiative"),
  ("sample", "Sample"),
  ("document", "Document"),
  ("repository", "Repository"),
  ("aggregate", "Aggregate"),
  ("product", "Product"),
  ("collection", "Collection"),
  ("coverage", "Coverage"),
  ("application", "Application"),
  ("stereomate", "Stereomate"),
  ("sensor", "Sensor"),
  ("platformseries", "Platform series"),
  ("sensorseries", "Sensor series"),
  ("productionseries", "Production series"),
  ("transferaggregate", "Transfer aggregate"),
  ("otheraggregate", "Other aggregate")]

/-- `_codelist_scope()`: (by_name, by_num) with by_num built from the inlined ArcGIS rows. -/
def codelistScope : List (String × String) × List (Int × String) :=
  (codelistScopeByName, buildByNum "MD_ScopeCode" codelistScopeByName inlinedArcgisCodedValues)

/-- The `by_name` table of `_codelist_character_set()`. -/
def codelistCharacterSetByName : List (String × String) := [
  ("ucs2", "UCS-2"),
  ("ucs4", "UCS-4"),
  ("utf7", "UTF-7"),
  ("utf8", "UTF-8"),
  ("utf16", "UTF-16"),
  ("8859part1", "ISO 8859-1"),
  ("8859part2", "ISO 8859-2"),
  ("8859part3", "ISO 8859-3"),
  ("8859part4", "ISO 8859-4"),
  ("8859part5", "ISO 8859-5"),
  ("8859part6", "ISO 8859-6"),
  ("8859part7", "ISO 8859-7"),
  ("8859part8", "ISO 8859-8"),
  ("8859part9", "ISO 8859-9"),
  ("8859part10", "ISO 8859-10"),
  ("8859part11", "ISO 8859-11"),
  ("8859part13", "ISO 8859-13"),
  ("8859part14", "ISO 8859-14"),
  ("8859part15", "ISO 8859-15"),
  ("8859part16", "ISO 8859-16"),
  ("usascii", "US ASCII"),
  ("ebcdic", "EBCDIC"),
  ("jis", "JIS"),
  ("shiftjis", "Shift JIS"),
  ("eucjp", "EUC-JP"),
  ("euckr", "EUC-KR"),
  ("big5", "Big 5"),
  ("gb2312", "GB 2312")]

/-- `_codelist_character_set()`: (by_name, by_num) with by_num built from the inlined ArcGIS rows. -/
def codelistCharacterSet : List (String × String) × List (Int × String) :=
  (codelistCharacterSetByName, buildByNum "MD_CharacterSetCode" codelistCharacterSetByName inlinedArcgisCodedValues)

/-- The `by_name` table of `_codelist_spatial_representation()`. -/
def codelistSpatialRepresentationByName : List (String × String) := [
  ("vector", "Vector"),
  ("grid", "Grid"),
  ("texttable", "Text, table"),
  ("tin", "TIN"),
  ("stereomodel", "Stereo model"),
  ("video", "Video")]

/-- `_codelist_spatial_representation()`: (by_name, by_num) with by_num built from the inlined ArcGIS rows. -/
def codelistSpatialRepresentation : List (String × String) × List (Int × String) :=
  (codelistSpatialRepresentationByName, buildByNum "MD_SpatialRepresentationTypeCode" codelistSpatialRepresentationByName inlinedArcgisCodedValues)

/-- The `by_name` table of `_codelist_topology_level()`. -/
def codelistTopologyLevelByName : List (String × String) := [
  ("geometryonly", "Geometry only"),
  ("topology1d", "Topology 1D"),
  ("planargraph", "Planar graph"),
  ("fullplanargraph", "Full planar graph"),
  ("surfacegraph", "Surface graph"),
  ("fullsurfacegraph", "Full surface graph"),
  ("topology3d", "Topology 3D"),
  ("fulltopology3d", "Full topology 3D"),
  ("abstract", "Abstract")]

/-- `_codelist_topology_level()`: (by_name, by_num) with by_num built from the inlined ArcGIS rows. -/
def codelistTopologyLevel : List (String × String) × List (Int × String) :=
  (codelistTopologyLevelByName, buildByNum "MD_TopologyLevelCode" codelistTopologyLevelByName inlinedArcgisCodedValues)

/-- The `by_name` table of `_codelist_presentation_form()`. -/
def codelistPresentationFormByName : List (String × String) := [
  ("documentdigital", "Document (digital)"),
  ("documenthardcopy", "Document (hard copy)"),
  ("imagedigital", "Image (digital)"),
  ("imagehardcopy", "Image (hard copy)"),
  ("mapdigital", "Map (digital)"),
  ("maphardcopy", "Map (hard copy)"),
  ("modeldigital", "Model (digital)"),
  ("modelhardcopy", "Model (hard copy)"),
  ("profiledigital", "Profile (digital)"),
  ("profilehardcopy", "Profile (hard copy)"),
  ("tabledigital", "Table (digital)"),
  ("tablehardcopy", "Table (hard copy)"),
  ("videodigital", "Video (digital)"),
  ("videohardcopy", "Video (hard copy)"),
  ("audiodigital", "Audio (digital)"),
  ("audiohardcopy", "Audio (hard copy)"),
  ("multimediadigital", "Multimedia (digital)"),
  ("multimediahardcopy", "Multimedia (hard copy)"),
  ("diagramdigital", "Diagram (digital)"),
  ("diagramhardcopy", "Diagram (hard copy)"),
  ("physicalobject", "Physical object")]

/-- `_codelist_presentation_form()`: (by_name, by_num) with by_num built from the inlined ArcGIS rows. -/
def codelistPresentationForm : List (String × String) × List (Int × String) :=
  (codelistPresentationFormByName, buildByNum "CI_PresentationFormCode" codelistPresentationFormByName inlinedArcgisCodedValues)

/-- The `by_name` table of `_codelist_geometric_object_type()`. -/
def codelistGeometricObjectTypeByName : List (String × String) := [
  ("complex", "Complex"),
  ("composite", "Composite"),
  ("curve", "Curve"),
  ("point", "Point"),
  ("solid", "Solid"),
  ("surface", "Surface")]

/-- `_codelist_geometric_object_type()`: (by_name, by_num) with by_num built from the inlined ArcGIS rows. -/
def codelistGeometricObjectType : List (String × String) × List (Int × String) :=
  (codelistGeometricObjectTypeByName, buildByNum "MD_GeometricObjectTypeCode" codelistGeometricObjectTypeByName inlinedArcgisCodedValues)

/-- `_codelist_content_type()`: ArcGIS item content type, with a literal
`by_num` table (no external source). -/
def codelistContentType : List (String × String) × List (Int × String) :=
  ([
  ("livedataandmaps", "Live Data and Maps"),
  ("downloadabledata", "Downloadable Data"),
  ("offlinedata", "Offline Data"),
  ("staticmapimages", "Static Map Images"),
  ("otherdocuments", "Other Documents"),
  ("applications", "Applications"),
  ("geographicservices", "Geographic Services"),
  ("clearinghouses", "Clearinghouses"),
  ("mapfiles", "Map Files"),
  ("geographicactivities", "Geographic Activities")],
   [
  (1, "Live Data and Maps"),
  (2, "Downloadable Data"),
  (3, "Offline Data"),
  (4, "Static Map Images"),
  (5, "Other Documents"),
  (6, "Applications"),
  (7, "Geographic Services"),
  (8, "Clearinghouses"),
  (9, "Map Files"),
  (10, "Geographic Activities")])

/-- `_CODELISTS`: the codelist registry, name -> (by_name, by_num), in source
order. -/
def CODELISTS : List (String × (List (String × String) × List (Int × String))) := [
  ("MD_RestrictionCode", codelistRestriction),
  ("CI_RoleCode", codelistRole),
  ("MD_ProgressCode", codelistProgress),
  ("MD_MaintenanceFrequencyCode", codelistMaintenanceFrequency),
  ("MD_TopicCategoryCode", codelistTopicCategory),
  ("MD_ScopeCode", codelistScope),
  ("MD_CharacterSetCode", codelistCharacterSet),
  ("MD_SpatialRepresentationTypeCode", codelistSpatialRepresentation),
  ("MD_TopologyLevelCode", codelistTopologyLevel),
  ("CI_PresentationFormCode", codelistPresentationForm),
  ("MD_GeometricObjectTypeCode", codelistGeometricObjectType),
  ("ArcGIS_ContentTypeCode", codelistContentType)]

/-- `FIELD_OBLIGATION`: ISO 19139 / INSPIRE obligation per exported field
name, in source order. -/
def FIELD_OBLIGATION : List (String × String) := [
  ("Resource Title", "mandatory"),
  ("Abstract", "mandatory"),
  ("Topic Category", "mandatory"),
  ("Keywords", "mandatory"),
  ("Geographic West Bounding Longitude", "mandatory"),
  ("Geographic East Bounding Longitude", "mandatory"),
  ("Geographic North Bounding Latitude", "mandatory"),
  ("Geographic South Bounding Latitude", "mandatory"),
  ("Data Language", "mandatory"),
  ("Scale Denominator", "mandatory"),
  ("Contact Organisation Name", "mandatory"),
  ("Contact Email Address", "mandatory"),
  ("Contact Role", "mandatory"),
  ("Distribution Online Resource Linkage", "mandatory"),
  ("Lineage Statement", "mandatory"),
  ("Data Quality Scope Level", "mandatory"),
  ("Metadata Language Code", "mandatory"),
  ("Metadata Date Stamp", "mandatory"),
  ("Metadata Scope Code", "mandatory"),
  ("Access Constraints", "mandatory"),
  ("Conformance Specification Title", "mandatory"),
  ("Conformance Pass", "mandatory"),
  ("Publication Date", "conditional"),
  ("Reference System Code", "conditional"),
  ("Reference System Code Space", "conditional"),
  ("Other Constraints", "mandatory"),
  ("Use Limitation", "mandatory")]

/-- The key normalisation of `resolve_codelist`: remove whitespace and
hyphens, lowercase ("case-insensitive, no spaces/hyphens"). -/
def resolveKey (s : String) : String :=
  ⟨(s.data.filter (fun c => !(isPySpace c || c == '-'))).map pyLowerChar⟩

/-- `resolve_codelist(raw_value, codelist_name)`: name lookup first, then
integer lookup, else pass the (stripped) value through. -/
def resolveCodelist (rawValue : String) (codelistName : String) : String :=
  if rawValue == "" then ""
  else
    let raw := pyStrip rawValue
    if raw == "" then ""
    else
      match alookup CODELISTS codelistName with
      | none => raw
      | some tables =>
          match alookup tables.1 (resolveKey raw) with
          | some lbl => lbl
          | none =>
              match pyInt raw with
              | some n =>
                  match alookup tables.2 n with
                  | some lbl => lbl
                  | none => raw
              | none => raw

/-- `get_field_obligation(field_name)`: exact table match, unknown names
(including the dynamically named "Other Keywords (...)" fields, spelled out
in the source as a separate branch) default to "optional". -/
def getFieldObligation (fieldName : String) : String :=
  match alookup FIELD_OBLIGATION fieldName with
  | some obl => obl
  | none => if pyStartsWith fieldName "Other Keywords (" then "optional" else "optional"

/-! ### `extract_metadata.py`: text normaliser and extraction engine -/

/-- The named-entity decoding step of `clean_text` (`html.unescape`),
modelled for the basic named and numeric entities; `html.unescape` on the
strings this code base handles agrees with this on entity-free text and on
the common XML entities. -/
def unescChars : List Char → List Char
  | [] => []
  | '&' :: 'a' :: 'm' :: 'p' :: ';' :: rest => '&' :: unescChars rest
  | '&' :: 'l' :: 't' :: ';' :: rest => '<' :: unescChars rest
  | '&' :: 'g' :: 't' :: ';' :: rest => '>' :: unescChars rest
  | '&' :: 'q' :: 'u' :: 'o' :: 't' :: ';' :: rest => '"' :: unescChars rest
  | '&' :: 'a' :: 'p' :: 'o' :: 's' :: ';' :: rest => Char.ofNat 39 :: unescChars rest
  | '&' :: '#' :: '3' :: '9' :: ';' :: rest => Char.ofNat 39 :: unescChars rest
  | c :: rest => c :: unescChars rest

/-- The scan of the tag-removal step, with explicit fuel (the input length)
so that the recursion is structural and evaluates by reduction.  A `<` with at
least one following non-`>` character up to a closing `>` is removed together
with that span (the regex `<[^>]+>`); otherwise the character is kept. -/
def stripTagsGo : Nat → List Char → List Char
  | _, [] => []
  | 0, l => l
  | fuel + 1, c :: rest =>
      if c == '<' then
        let inner := rest.takeWhile (fun x => x ≠ '>')
        if inner.length < rest.length && !inner.isEmpty then
          stripTagsGo fuel (rest.drop (inner.length + 1))
        else c :: stripTagsGo fuel rest
      else c :: stripTagsGo fuel rest

/-- The tag-removal step of `clean_text`: `re.sub(r'<[^>]+>', '', text)`.
The fuel `l.length` dominates the number of scan steps. -/
def stripTagsChars (l : List Char) : List Char :=
  stripTagsGo l.length l

/-- `str.split()` (no argument): split on whitespace runs, dropping empty
pieces; `cur` accumulates the current word reversed. -/
def splitWsAux : List Char → List Char → List (List Char)
  | [], cur => if cur.isEmpty then [] else [cur.reverse]
  | c :: rest, cur =>
      if isPySpace c then
        if cur.isEmpty then splitWsAux rest [] else cur.reverse :: splitWsAux rest []
      else splitWsAux rest (c :: cur)

/-- `str.split()` on a character list. -/
def splitWs (l : List Char) : List (List Char) :=
  splitWsAux l []

/-- `clean_text(text)` on a non-`None` string: decode entities, drop markup
tags, collapse whitespace runs to single spaces, strip. -/
def cleanText (s : String) : String :=
  ⟨pyStripChars (List.intercalate [' '] (splitWs (stripTagsChars (unescChars s.data))))⟩

/-- Fragments contributed to loose `get_text` by an optional text: Python
appends `t.strip()` when the text is truthy. -/
def optStripPart : Option String → List String
  | none => []
  | some t => if t ≠ "" then [pyStrip t] else []

/-- The child fragments of loose `get_text`: each direct child contributes
its stripped text and stripped tail when truthy.  Grandchildren are never
visited. -/
def looseChildParts (cs : List XmlElem) : List String :=
  cs.flatMap (fun child => optStripPart child.text ++ optStripPart child.tail)

/-- `get_text(element, default)` of the loose engine.  When the element has
non-empty direct text the function returns `clean_text` of that text alone
(the child loop, and the dead re-append of `element.text` at source lines
877-878, are never reached); otherwise it cleans the joined one-level child
fragments. -/
def getText (element : Option XmlElem) (dflt : String) : String :=
  match element with
  | none => dflt
  | some e =>
      if optTruthy e.text then cleanText (e.text.getD "")
      else cleanText (pyJoin " " (looseChildParts e.children))

/-- `add_field(field_name, value)` from `extract_all_fields`: ignore falsy
values; append with `" | "` when the key already holds a truthy value. -/
def addField (fields : List (String × String)) (fieldName value : String) :
    List (String × String) :=
  if value ≠ "" then
    match alookup fields fieldName with
    | some old =>
        if old ≠ "" then dictInsert fields fieldName (old ++ " | " ++ value)
        else dictInsert fields fieldName value
    | none => dictInsert fields fieldName value
  else fields

/-- `extract_all_fields(root)`, abstracted over the document walk: every
write to the `fields` accumulator in the source (lines 924-934) goes through
`add_field`, and every value passed to `add_field` is a string, so for the
purposes of the output-mapping invariants the engine is the fold of
`add_field` over the document-derived sequence of (field name, value)
pairs. -/
def extractAllFieldsM (adds : List (String × String)) : List (String × String) :=
  adds.foldl (fun fields nv => addField fields nv.1 nv.2) []

/-! ### Sorting (Python `sorted` on strings) -/

/-- Code-point lexicographic comparison, Python `<=` on strings. -/
def charListLe : List Char → List Char → Bool
  | [], _ => true
  | _ :: _, [] => false
  | a :: xs, b :: ys =>
      if a.toNat < b.toNat then true
      else if b.toNat < a.toNat then false
      else charListLe xs ys

/-- Python `a <= b` on strings. -/
def pyStrLe (a b : String) : Bool :=
  charListLe a.data b.data

/-- Insert into a `pyStrLe`-sorted list. -/
def insertSorted (a : String) : List String → List String
  | [] => [a]
  | b :: rest => if pyStrLe a b then a :: b :: rest else b :: insertSorted a rest

/-- Python `sorted(l)` for string lists (insertion sort; same multiset,
`pyStrLe`-sorted output). -/
def pySortedStr (l : List String) : List String :=
  l.foldr insertSorted []

/-! ### Conformance evaluators -/

/-- One record of `compute_compliance` (loose evaluator): the appended dict,
plus the local `missing` list it is built from. -/
structure LooseRow where
  filename : String
  compliantYN : String
  missing : List String
  missingJoined : String
  missingCount : Nat
  deriving Repr, DecidableEq

/-- `compute_compliance(all_data, field_names)`: mandatory fields are the
`field_names` (in the order given, which `process_all_xml_files` supplies
alphabetically sorted) whose obligation is "mandatory"; one row per file in
sorted filename order. -/
def computeCompliance (allData : List (String × List (String × String)))
    (fieldNames : List String) : List LooseRow :=
  let mandatoryFields := fieldNames.filter (fun fn => getFieldObligation fn == "mandatory")
  (pySortedStr (allData.map (fun d => d.1))).map (fun filename =>
    let fields := (alookup allData filename).getD []
    let missing := mandatoryFields.filter
      (fun fn => pyStrip ((alookup fields fn).getD "") == "")
    { filename := filename
      compliantYN := if missing.length == 0 then "Yes" else "No"
      missing := missing
      missingJoined := if missing.isEmpty then "" else pyJoin ", " missing
      missingCount := missing.length })

/-- The field-name aggregation of `process_all_xml_files`: the union of the
field names observed across the batch, alphabetically sorted (source line
1391: `sorted_field_names = sorted(all_field_names)`). -/
def sortedFieldNamesModel (allData : List (String × List (String × String))) :
    List String :=
  pySortedStr ((allData.flatMap (fun fd => fd.2.map (fun kv => kv.1))).dedup)

/-- One record of `compute_summary` (strict evaluator), with the local
`missing` list it is built from. -/
structure StrictRow where
  filename : String
  conformantYN : String
  missing : List String
  missingJoined : String
  missingCount : Nat
  presentMandatory : Nat
  presentConditional : Nat
  presentOptional : Nat
  deriving Repr, DecidableEq

/-- `compute_summary(results, checks)`: per file, in sorted filename order,
the conformant flag, the missing-mandatory list (checks order), and presence
counts per obligation. -/
def computeSummary (results : List (String × List (String × String)))
    (checks : List ConfCheck) : List StrictRow :=
  let mandatory := (checks.filter (fun c => c.2.1 == "mandatory")).map (fun c => c.1)
  (pySortedStr (results.map (fun r => r.1))).map (fun filename =>
    let row := (alookup results filename).getD []
    let missing := mandatory.filter (fun n => !(alookup row n == some "Present"))
    { filename := filename
      conformantYN := if missing.length == 0 then "Yes" else "No"
      missing := missing
      missingJoined := if missing.isEmpty then "" else pyJoin ", " missing
      missingCount := missing.length
      presentMandatory := mandatory.countP (fun n => alookup row n == some "Present")
      presentConditional := checks.countP
        (fun c => c.2.1 == "conditional" && alookup row c.1 == some "Present")
      presentOptional := checks.countP
        (fun c => c.2.1 == "optional" && alookup row c.1 == some "Present") })


/-! ## Helper lemmas -/

theorem mem_of_alookup_eq_some {α β : Type} [BEq α] [LawfulBEq α]
    {l : List (α × β)} {k : α} {v : β} (h : alookup l k = some v) : (k, v) ∈ l := by
  induction l with
  | nil => simp [alookup] at h
  | cons p rest ih =>
      rw [alookup] at h
      by_cases hk : p.1 == k
      · obtain ⟨k', v'⟩ := p
        simp only at hk
        rw [hk] at h
        simp only [if_pos rfl] at h
        simp at hk
        subst hk
        cases h
        exact List.mem_cons_self _ _
      · obtain ⟨k', v'⟩ := p
        simp only at hk
        rw [if_neg hk] at h
        exact List.mem_cons_of_mem _ (ih h)

theorem mem_dictInsert {α β : Type} [BEq α]
    {l : List (α × β)} {k : α} {v : β} {p : α × β}
    (h : p ∈ dictInsert l k v) : p ∈ l ∨ p.2 = v := by
  induction l with
  | nil =>
      simp only [dictInsert, List.mem_singleton] at h
      subst h; exact Or.inr rfl
  | cons q rest ih =>
      obtain ⟨k', v'⟩ := q
      rw [dictInsert] at h
      by_cases hk : (k' == k) = true
      · rw [if_pos hk] at h
        rcases List.mem_cons.mp h with h1 | h1
        · subst h1; exact Or.inr rfl
        · exact Or.inl (List.mem_cons_of_mem _ h1)
      · rw [if_neg hk] at h
        rcases List.mem_cons.mp h with h1 | h1
        · exact Or.inl (by simp [h1])
        · rcases ih h1 with h2 | h2
          · exact Or.inl (List.mem_cons_of_mem _ h2)
          · exact Or.inr h2

theorem append_pipe_ne_empty (a v : String) : a ++ " | " ++ v ≠ "" := by
  intro h
  have hd := congrArg String.data h
  simp only [String.data_append] at hd
  simp at hd

theorem addField_preserves {fields : List (String × String)} {n v : String}
    (h : ∀ p ∈ fields, p.2 ≠ "") : ∀ p ∈ addField fields n v, p.2 ≠ "" := by
  intro p hp
  rw [addField] at hp
  split at hp
  · rename_i hv
    split at hp
    · rename_i old hl
      split at hp
      · rcases mem_dictInsert hp with h1 | h1
        · exact h p h1
        · rw [h1]; exact append_pipe_ne_empty old v
      · rcases mem_dictInsert hp with h1 | h1
        · exact h p h1
        · rw [h1]; exact hv
    · rcases mem_dictInsert hp with h1 | h1
      · exact h p h1
      · rw [h1]; exact hv
  · exact h p hp

theorem extract_fold_preserves (adds : List (String × String)) :
    ∀ fields : List (String × String), (∀ p ∈ fields, p.2 ≠ "") →
      ∀ p ∈ adds.foldl (fun f nv => addField f nv.1 nv.2) fields, p.2 ≠ "" := by
  induction adds with
  | nil => intro fields h; simpa using h
  | cons a rest ih =>
      intro fields h
      simp only [List.foldl_cons]
      exact ih _ (addField_preserves h)

/-- C9: every value stored in the mapping produced by the loose extraction
engine (the fold of `add_field` over the document-derived field/value
sequence) is a non-empty string — absent or empty located values are omitted,
never inserted as the empty string. -/
theorem c9_loose_extraction_values_nonempty
    (adds : List (String × String)) (name v : String)
    (h : alookup (extractAllFieldsM adds) name = some v) : v ≠ "" :=
  extract_fold_preserves adds [] (by simp) _ (mem_of_alookup_eq_some h)

/-- Witness for C9 at a concrete add sequence: the empty add for "A" is
omitted and the two "B" adds fold into a single non-empty value. -/
theorem c9_loose_extraction_values_nonempty_witness :
    alookup (extractAllFieldsM [("A", ""), ("B", "x"), ("B", "y")]) "B" = some "x | y" ∧
      ("x | y" : String) ≠ "" :=
  ⟨by decide, c9_loose_extraction_values_nonempty [("A", ""), ("B", "x"), ("B", "y")] "B" "x | y" (by decide)⟩

/-! ### Digit-string lemmas for the codelist claims -/

theorem isPySpace_eq_false_of_digit {c : Char} (h : isAsciiDigit c = true) :
    isPySpace c = false := by
  simp only [isAsciiDigit, Bool.and_eq_true, decide_eq_true_eq] at h
  simp only [isPySpace, Bool.or_eq_false_iff, beq_eq_false_iff_ne, ne_eq]
  refine ⟨⟨⟨⟨⟨?_, ?_⟩, ?_⟩, ?_⟩, ?_⟩, ?_⟩ <;>
    (rintro rfl; revert h; decide)

theorem not_hyphen_of_digit {c : Char} (h : isAsciiDigit c = true) :
    (c == '-') = false := by
  simp only [beq_eq_false_iff_ne, ne_eq]
  rintro rfl; revert h; decide

theorem pyLowerChar_digit {c : Char} (h : isAsciiDigit c = true) :
    pyLowerChar c = c := by
  simp only [isAsciiDigit, Bool.and_eq_true, decide_eq_true_eq] at h
  rw [pyLowerChar]
  have : isAsciiUpper c = false := by
    simp only [isAsciiUpper, Bool.and_eq_false_iff, decide_eq_false_iff_not]
    omega
  rw [this]
  simp

theorem dropWhile_eq_self_of_forall {p : Char → Bool} {l : List Char}
    (h : ∀ c ∈ l, p c = false) : l.dropWhile p = l := by
  cases l with
  | nil => rfl
  | cons c rest =>
      rw [List.dropWhile_cons, h c (List.mem_cons_self _ _)]
      simp

theorem pyStripChars_eq_self_of_digits {l : List Char}
    (h : l.all isAsciiDigit = true) : pyStripChars l = l := by
  have hall : ∀ c ∈ l, isPySpace c = false := by
    intro c hc
    exact isPySpace_eq_false_of_digit (List.all_eq_true.mp h c hc)
  rw [pyStripChars, dropWhile_eq_self_of_forall hall,
    dropWhile_eq_self_of_forall (by intro c hc; exact hall c (List.mem_reverse.mp hc)),
    List.reverse_reverse]

theorem resolveKey_eq_self_of_digits {l : List Char}
    (h : l.all isAsciiDigit = true) : resolveKey ⟨l⟩ = ⟨l⟩ := by
  rw [resolveKey]
  have hfilter : l.filter (fun c => !(isPySpace c || c == '-')) = l := by
    apply List.filter_eq_self.mpr
    intro c hc
    rw [isPySpace_eq_false_of_digit (List.all_eq_true.mp h c hc),
      not_hyphen_of_digit (List.all_eq_true.mp h c hc)]
    rfl
  simp only [hfilter]
  congr 1
  have : ∀ c ∈ l, pyLowerChar c = id c := by
    intro c hc
    exact pyLowerChar_digit (List.all_eq_true.mp h c hc)
  rw [List.map_congr_left this, List.map_id]

theorem alookup_none_of_digits {tbl : List (String × String)}
    (hk : ∀ p ∈ tbl, p.1.data.any (fun c => !isAsciiDigit c) = true)
    {s : String} (hs : s.data.all isAsciiDigit = true) : alookup tbl s = none := by
  induction tbl with
  | nil => rfl
  | cons p rest ih =>
      obtain ⟨k, v⟩ := p
      rw [alookup]
      have hne : (k == s) = false := by
        rw [beq_eq_false_iff_ne]
        rintro rfl
        obtain ⟨c, hc, hcd⟩ := List.any_eq_true.mp (hk (k, v) (List.mem_cons_self _ _))
        have := List.all_eq_true.mp hs c hc
        simp [this] at hcd
      rw [hne]
      simp only [Bool.false_eq_true, if_false]
      exact ih (fun q hq => hk q (List.mem_cons_of_mem _ hq))

theorem alookup_of_mem_nodup {α β : Type} [BEq α] [LawfulBEq α]
    {l : List (α × β)} {k : α} {v : β}
    (hnd : (l.map Prod.fst).Nodup) (hm : (k, v) ∈ l) : alookup l k = some v := by
  induction l with
  | nil => cases hm
  | cons p rest ih =>
      obtain ⟨k', v'⟩ := p
      rw [alookup]
      rcases List.mem_cons.mp hm with h1 | h1
      · cases h1
        simp
      · have hk : (k' == k) = false := by
          rw [beq_eq_false_iff_ne]
          rintro rfl
          have : k' ∈ rest.map Prod.fst :=
            List.mem_map.mpr ⟨(k', v), h1, rfl⟩
          exact (List.nodup_cons.mp hnd).1 this
        rw [hk]
        simp only [Bool.false_eq_true, if_false]
        exact ih (List.nodup_cons.mp hnd).2 h1

theorem pyIntChars_digits {l : List Char} (h1 : l ≠ [])
    (h2 : l.all isAsciiDigit = true) :
    pyIntChars l = some (Int.ofNat (digitsVal l)) := by
  rw [pyIntChars, pyStripChars_eq_self_of_digits h2]
  split
  · exfalso
    have : isAsciiDigit '+' = true :=
      List.all_eq_true.mp h2 '+' (List.mem_cons_self _ _)
    revert this; decide
  · exfalso
    have : isAsciiDigit '-' = true :=
      List.all_eq_true.mp h2 '-' (List.mem_cons_self _ _)
    revert this; decide
  · simp [h1, h2]

theorem digitsVal_replicate_zero (k : Nat) (l : List Char) :
    digitsVal (List.replicate k '0' ++ l) = digitsVal l := by
  rw [digitsVal, List.foldl_append]
  have : List.foldl (fun acc c => 10 * acc + (c.toNat - 48)) 0 (List.replicate k '0') = 0 := by
    induction k with
    | zero => rfl
    | succ m ih => rw [List.replicate_succ, List.foldl_cons]; exact ih
  rw [this]
  rfl

theorem all_digits_replicate_zero (k : Nat) {l : List Char}
    (h : l.all isAsciiDigit = true) :
    (List.replicate k '0' ++ l).all isAsciiDigit = true := by
  rw [List.all_append, h, Bool.and_true]
  apply List.all_eq_true.mpr
  intro c hc
  rw [(List.eq_of_mem_replicate hc : c = '0')]
  decide

/-- The `by_name` key tables of every registered codelist consist of keys
that contain at least one non-digit character, so a digit-only raw value can
never hit a name-table entry. -/
theorem codelists_byname_keys_nondigit :
    CODELISTS.all (fun e => e.2.1.all (fun p => p.1.data.any (fun c => !isAsciiDigit c))) = true := by
  decide

/-- The registry's codelist names are pairwise distinct. -/
theorem codelists_names_nodup : (CODELISTS.map Prod.fst).Nodup := by
  decide

/-- C6: for every registered codelist and every number `n` in its number
table, `resolve_codelist` resolves any all-digit spelling of `n` — the bare
decimal string (`k = 0`) as well as every zero-padded form — to the number
table's label for `n`. -/
theorem c6_zero_padded_number_resolution
    (cname : String) (bn : List (String × String)) (bnum : List (Int × String))
    (hmem : (cname, bn, bnum) ∈ CODELISTS)
    (s : List Char) (hs1 : s ≠ []) (hs2 : s.all isAsciiDigit = true)
    (n : Int) (hn : Int.ofNat (digitsVal s) = n)
    (lbl : String) (hlbl : alookup bnum n = some lbl) (k : Nat) :
    resolveCodelist ⟨List.replicate k '0' ++ s⟩ cname = lbl := by
  have hld : List.replicate k '0' ++ s ≠ [] := by simp [hs1]
  have hldig : (List.replicate k '0' ++ s).all isAsciiDigit = true :=
    all_digits_replicate_zero k hs2
  have h0 : ((⟨List.replicate k '0' ++ s⟩ : String) == "") = false := by
    rw [beq_eq_false_iff_ne]
    intro hc
    exact hld (congrArg String.data hc)
  have hstrip : pyStrip ⟨List.replicate k '0' ++ s⟩ = ⟨List.replicate k '0' ++ s⟩ :=
    congrArg String.mk (pyStripChars_eq_self_of_digits hldig)
  have hreg : alookup CODELISTS cname = some (bn, bnum) :=
    alookup_of_mem_nodup codelists_names_nodup hmem
  have hkey : resolveKey ⟨List.replicate k '0' ++ s⟩ = ⟨List.replicate k '0' ++ s⟩ :=
    resolveKey_eq_self_of_digits hldig
  have hbn : alookup bn ⟨List.replicate k '0' ++ s⟩ = none := by
    apply alookup_none_of_digits _ hldig
    have hall := List.all_eq_true.mp codelists_byname_keys_nondigit _ hmem
    exact fun p hp => List.all_eq_true.mp hall p hp
  have hint : pyInt ⟨List.replicate k '0' ++ s⟩ = some n := by
    rw [pyInt]
    rw [pyIntChars_digits hld hldig]
    rw [digitsVal_replicate_zero, hn]
  rw [resolveCodelist]
  simp only [h0, Bool.false_eq_true, if_false, hstrip, hreg, hkey, hbn, hint, hlbl]

/-- Witness for C6: in `MD_RestrictionCode` the number 5 carries the label
"Licence", and both the bare "5" (k = 0) and the padded "005" (k = 2) resolve
to it. -/
theorem c6_zero_padded_number_resolution_witness :
    ("MD_RestrictionCode", codelistRestriction.1, codelistRestriction.2) ∈ CODELISTS ∧
      alookup codelistRestriction.2 5 = some "Licence" ∧
      resolveCodelist "005" "MD_RestrictionCode" = "Licence" ∧
      resolveCodelist "5" "MD_RestrictionCode" = "Licence" := by
  refine ⟨by decide, by decide, ?_, ?_⟩
  · exact c6_zero_padded_number_resolution "MD_RestrictionCode"
      codelistRestriction.1 codelistRestriction.2 (by decide)
      ['5'] (by decide) (by decide) 5 (by decide) "Licence" (by decide) 2
  · exact c6_zero_padded_number_resolution "MD_RestrictionCode"
      codelistRestriction.1 codelistRestriction.2 (by decide)
      ['5'] (by decide) (by decide) 5 (by decide) "Licence" (by decide) 0

/-- C5 counterexample: `resolve_codelist(" 999 ", "MD_RestrictionCode")` is a
non-empty unresolvable input (its normalised name key misses the name table
and its integer parse, 999, misses the number table), yet the function does
not return the raw value unchanged — it returns the stripped "999". -/
theorem c5_counterexample_strips_raw_value :
    alookup codelistRestriction.1 (resolveKey " 999 ") = none ∧
      pyInt " 999 " = some 999 ∧
      alookup codelistRestriction.2 999 = none ∧
      resolveCodelist " 999 " "MD_RestrictionCode" = "999" ∧
      (" 999 " : String) ≠ "999" := by
  refine ⟨by decide, by decide, by decide, by decide, by decide⟩

/-- C5 as amended: when the stripped value's name key misses the name table
and its integer parse misses the number table (or the codelist is unknown),
`resolve_codelist` returns the whitespace-stripped raw value — which equals
`raw_value` itself whenever `raw_value` carries no surrounding whitespace.
No exception is modelled because the `int()` failure is absorbed into the
`Option` result. -/
theorem c5_amended_unresolved_passthrough
    (rawValue cname : String) (hraw : rawValue ≠ "")
    (h : alookup CODELISTS cname = none ∨
      ∃ bn bnum, alookup CODELISTS cname = some (bn, bnum) ∧
        alookup bn (resolveKey (pyStrip rawValue)) = none ∧
        ∀ n, pyInt (pyStrip rawValue) = some n → alookup bnum n = none) :
    resolveCodelist rawValue cname = pyStrip rawValue := by
  rw [resolveCodelist]
  have h0 : (rawValue == "") = false := by
    rw [beq_eq_false_iff_ne]; exact hraw
  simp only [h0, Bool.false_eq_true, if_false]
  by_cases hs : (pyStrip rawValue == "") = true
  · simp only [hs, if_true]
    exact (eq_of_beq hs).symm
  · rw [Bool.not_eq_true] at hs
    simp only [hs, Bool.false_eq_true, if_false]
    rcases h with h | ⟨bn, bnum, hreg, hbn, hnum⟩
    · simp only [h]
    · simp only [hreg, hbn]
      cases hint : pyInt (pyStrip rawValue) with
      | none => simp only
      | some n => simp only [hnum n hint]

/-- Witness for C5 (amended) at "999" against `MD_RestrictionCode`: the value
passes through, and stripping is the identity here. -/
theorem c5_amended_unresolved_passthrough_witness :
    resolveCodelist "999" "MD_RestrictionCode" = pyStrip "999" ∧
      pyStrip "999" = "999" := by
  refine ⟨?_, by decide⟩
  exact c5_amended_unresolved_passthrough "999" "MD_RestrictionCode" (by decide)
    (Or.inr ⟨codelistRestriction.1, codelistRestriction.2, by decide, by decide,
      fun n hn => by
        rw [show pyInt (pyStrip "999") = some 999 from by decide] at hn
        cases hn
        decide⟩)

/-! ### C1: the strict bounding-box check -/

/-- A well-formed strict document whose bounding-box container resolves and
holds west/east/south bounds with content, but no north bound. -/
def bboxDoc : XmlElem :=
  .mk (clark GMD "MD_Metadata") none
    [.mk (clark GMD "identificationInfo") none
      [.mk (clark GMD "MD_DataIdentification") none
        [.mk (clark GMD "extent") none
          [.mk (clark GMD "EX_Extent") none
            [.mk (clark GMD "geographicElement") none
              [.mk (clark GMD "EX_GeographicBoundingBox") none
                [.mk (clark GMD "westBoundLongitude") (some "1.0") [] none,
                 .mk (clark GMD "eastBoundLongitude") (some "2.0") [] none,
                 .mk (clark GMD "southBoundLatitude") (some "3.0") [] none]
                none]
              none]
            none]
          none]
        none]
      none]
    none

/-- C1 counterexample: in `bboxDoc` the parent container resolves and
west/east/south are present with content while north is absent, yet
`_check_bbox` returns "Absent", not the "Empty" the claim requires. -/
theorem c1_counterexample_bbox_absent_sub_element :
    (findPath (some bboxDoc) bboxBase).isSome = true ∧
      (findPath (some bboxDoc) (bboxBase ++ [(GMD, "northBoundLatitude")])).isSome = false ∧
      (["westBoundLongitude", "eastBoundLongitude", "southBoundLatitude"].all
        (fun comp => optHasValue (findPath (some bboxDoc) (bboxBase ++ [(GMD, comp)])))
        = true) ∧
      checkBbox bboxDoc = "Absent" ∧
      ("Absent" : String) ≠ "Empty" := by
  refine ⟨by decide, by decide, by decide, by decide, by decide⟩

/-- Modelled from the amended claim: walk the four directional sub-elements in
west/east/south/north order; classify by the first one that is not present
with content — "Absent" if that sub-element's path does not resolve (in
particular whenever the parent container does not resolve), "Empty" if it
resolves without content; "Present" when all four are present with
content. -/
def bboxSpecClassify (root : XmlElem) : String :=
  match bboxComps.find?
      (fun comp => !(optHasValue (findPath (some root) (bboxBase ++ [(GMD, comp)])))) with
  | none => "Present"
  | some comp =>
      if (findPath (some root) (bboxBase ++ [(GMD, comp)])).isSome then "Empty" else "Absent"

theorem checkBboxGo_eq_spec (root : XmlElem) (comps : List String) :
    checkBboxGo root comps =
      match comps.find?
          (fun comp => !(optHasValue (findPath (some root) (bboxBase ++ [(GMD, comp)])))) with
      | none => "Present"
      | some comp =>
          if (findPath (some root) (bboxBase ++ [(GMD, comp)])).isSome then "Empty"
          else "Absent" := by
  induction comps with
  | nil => rfl
  | cons c cs ih =>
      rw [checkBboxGo]
      cases h : findPath (some root) (bboxBase ++ [(GMD, c)]) with
      | none => simp [List.find?_cons, optHasValue, h]
      | some el =>
          by_cases hv : hasValue el = true
          · simp only [List.find?_cons, optHasValue, h, hv, Bool.not_true, if_pos]
            simpa [hv] using ih
          · rw [Bool.not_eq_true] at hv
            simp [List.find?_cons, optHasValue, h, hv]

/-- C1 as amended: `_check_bbox` classifies by the first insufficient
sub-element in west/east/south/north order — "Absent" when that sub-element
does not resolve (even if the parent container does), "Empty" when it
resolves empty — and returns "Present" iff all four sub-elements are present
with non-empty text. -/
theorem c1_amended_bbox_first_failure_classification (root : XmlElem) :
    checkBbox root = bboxSpecClassify root ∧
      (checkBbox root = "Present" ↔
        bboxComps.all
          (fun comp => optHasValue (findPath (some root) (bboxBase ++ [(GMD, comp)])))
          = true) := by
  have hmain : checkBbox root = bboxSpecClassify root := by
    rw [checkBbox, bboxSpecClassify]
    exact checkBboxGo_eq_spec root bboxComps
  refine ⟨hmain, ?_⟩
  rw [hmain, bboxSpecClassify]
  cases hf : bboxComps.find?
      (fun comp => !(optHasValue (findPath (some root) (bboxBase ++ [(GMD, comp)])))) with
  | none =>
      simp only [List.find?_eq_none] at hf
      constructor
      · intro _
        apply List.all_eq_true.mpr
        intro comp hc
        have := hf comp hc
        simpa using this
      · intro _; rfl
  | some comp =>
      have hmem := List.find?_some hf
      have hcm := List.mem_of_find?_eq_some hf
      show (if (findPath (some root) (bboxBase ++ [(GMD, comp)])).isSome = true
          then "Empty" else "Absent") = "Present" ↔ _
      constructor
      · intro h
        exfalso
        by_cases hp : (findPath (some root) (bboxBase ++ [(GMD, comp)])).isSome = true
        · rw [if_pos hp] at h
          exact absurd h (by decide)
        · rw [if_neg hp] at h
          exact absurd h (by decide)
      · intro hall
        exfalso
        have := List.all_eq_true.mp hall comp hcm
        rw [this] at hmem
        simp at hmem

/-! ### C2: the two text normalisers -/

/-- Element with its own direct text and a child carrying text. -/
def c2DocA : XmlElem :=
  .mk "t" (some "x") [.mk "c" (some "y") [] none] none

/-- Element whose first child is empty but has a tail, producing adjacent
join spaces in the strict normaliser. -/
def c2DocB : XmlElem :=
  .mk "t" (some "a") [.mk "c" none [] (some "b")] none

mutual
/-- The claim's fragment list for one element: its own text, then per child
the child's normalized text followed by the child's tail. -/
def claimFragments : XmlElem → List String
  | .mk _ tx cs _ => optListStr tx ++ claimChildFragments cs
/-- The claim's fragment list contributed by a list of children. -/
def claimChildFragments : List XmlElem → List String
  | [] => []
  | c :: cs =>
      (cleanText (pyJoin " " (claimFragments c)) :: optListStr c.tail) ++
        claimChildFragments cs
end

/-- Modelled from the claim's words: the cleaned-up concatenation of the
node's own text together with, recursively for each child in order, the
child's normalized text followed by the child's tail text, all fragments
joined by single spaces and then entity-decoded, tag-stripped,
whitespace-collapsed and trimmed. -/
def claimNormalize (e : XmlElem) : String :=
  cleanText (pyJoin " " (claimFragments e))

/-- C2 counterexample: the loose `get_text` drops the descendant text "y"
when the node has its own direct text ("x y" is required by the claim), and
the strict `_get_text` performs no whitespace collapsing ("a  b" keeps the
double space the claim says is collapsed). -/
theorem c2_counterexample_normalizers_differ :
    getText (some c2DocA) "" = "x" ∧
      claimNormalize c2DocA = "x y" ∧
      getText (some c2DocA) "" ≠ claimNormalize c2DocA ∧
      getTextS c2DocB = "a  b" ∧
      claimNormalize c2DocB = "a b" ∧
      getTextS c2DocB ≠ claimNormalize c2DocB := by
  refine ⟨by decide, by decide, by decide, by decide, by decide, by decide⟩

/-- C2 as amended: for a `None` node the loose `get_text` returns the default
(empty when defaulted) and the strict `_get_text` the empty string; when the
node's own text is non-empty, the loose `get_text` returns `clean_text` of
that text alone, never visiting descendants; when it is absent or empty, the
loose `get_text` cleans the joined one-level child text/tail fragments
(grandchildren never visited); and the strict `_get_text` returns the
space-join of the node's own text with, recursively per child, the child's
`_get_text` and its tail, stripped only at the ends, with no entity decoding,
tag stripping, or whitespace collapsing. -/
theorem c2_amended_normalizer_behaviour (e : XmlElem) (d t : String) :
    getText none d = d ∧
      getTextSOpt none = "" ∧
      (e.text = some t → t ≠ "" → getText (some e) d = cleanText t) ∧
      (optTruthy e.text = false →
        getText (some e) d = cleanText (pyJoin " " (looseChildParts e.children))) ∧
      getTextS e = pyStrip (pyJoin " " (optListStr e.text ++ strictParts e.children)) := by
  refine ⟨rfl, rfl, ?_, ?_, ?_⟩
  · intro h1 h2
    rw [getText, h1]
    have : optTruthy (some t) = true := by simp [optTruthy, h2]
    rw [if_pos this]
    rfl
  · intro h1
    rw [getText, h1]
    simp
  · cases e; rfl

/-- Witness for C2 (amended) at `c2DocA` with its direct text "x". -/
theorem c2_amended_normalizer_behaviour_witness :
    getText (some c2DocA) "" = cleanText "x" ∧
      getTextS c2DocA =
        pyStrip (pyJoin " " (optListStr c2DocA.text ++ strictParts c2DocA.children)) := by
  have h := c2_amended_normalizer_behaviour c2DocA "" "x"
  exact ⟨h.2.2.1 (by decide) (by decide), h.2.2.2.2⟩

/-! ### C3: the order of the missing-mandatory list -/

theorem mem_insertSorted {a x : String} {l : List String} :
    x ∈ insertSorted a l ↔ x = a ∨ x ∈ l := by
  induction l with
  | nil => simp [insertSorted]
  | cons b rest ih =>
      rw [insertSorted]
      by_cases h : pyStrLe a b = true
      · simp [h]
      · rw [if_neg h]
        simp only [List.mem_cons, ih]
        tauto

theorem mem_pySortedStr {x : String} {l : List String} :
    x ∈ pySortedStr l ↔ x ∈ l := by
  induction l with
  | nil => simp [pySortedStr]
  | cons b rest ih =>
      rw [pySortedStr, List.foldr_cons]
      rw [show List.foldr insertSorted [] rest = pySortedStr rest from rfl]
      rw [mem_insertSorted, ih]
      simp

/-- A small two-file loose batch: `a.xml` carries Resource Title and
Abstract, `b.xml` only an optional ArcGIS field. -/
def c3AllData : List (String × List (String × String)) :=
  [("a.xml", [("Resource Title", "T"), ("Abstract", "A")]),
   ("b.xml", [("Creation Date", "2020")])]

/-- Modelled from the claim's words: the members of `xs` listed in
field-catalog (obligation-table) order. -/
def catalogOrdered (xs : List String) : List String :=
  (FIELD_OBLIGATION.map Prod.fst).filter (fun n => xs.contains n)

/-- C3 counterexample: in the loose pipeline the batch's field names are
alphabetically sorted before the mandatory filter, so `b.xml`'s missing list
comes out as ["Abstract", "Resource Title"] — the alphabetical order, not the
field-catalog order ["Resource Title", "Abstract"] of the same set. -/
theorem c3_counterexample_missing_list_alphabetical :
    sortedFieldNamesModel c3AllData = ["Abstract", "Creation Date", "Resource Title"] ∧
      (computeCompliance c3AllData (sortedFieldNamesModel c3AllData)).map LooseRow.missing =
        [[], ["Abstract", "Resource Title"]] ∧
      catalogOrdered ["Abstract", "Resource Title"] = ["Resource Title", "Abstract"] ∧
      (["Abstract", "Resource Title"] : List String) ≠ ["Resource Title", "Abstract"] := by
  refine ⟨by decide, by decide, by decide, by decide⟩

/-- C3 as amended: the strict evaluator's missing list is a sublist of the
check catalog's mandatory names (catalog order), while the loose evaluator's
missing list is a sublist of the `field_names` argument filtered to mandatory
— and `process_all_xml_files` passes `field_names` alphabetically sorted, so
the loose missing list is alphabetically sorted, not in catalog order. -/
theorem c3_amended_missing_list_order
    (results : List (String × List (String × String))) (checks : List ConfCheck)
    (allData : List (String × List (String × String))) (fieldNames : List String)
    (rowS : StrictRow) (rowL : LooseRow)
    (hS : rowS ∈ computeSummary results checks)
    (hL : rowL ∈ computeCompliance allData fieldNames) :
    rowS.missing.Sublist ((checks.filter (fun c => c.2.1 == "mandatory")).map Prod.fst) ∧
      rowL.missing.Sublist
        (fieldNames.filter (fun fn => getFieldObligation fn == "mandatory")) ∧
      (List.Pairwise (fun a b => pyStrLe a b = true) fieldNames →
        List.Pairwise (fun a b => pyStrLe a b = true) rowL.missing) := by
  obtain ⟨fnameS, _, hfS⟩ := List.mem_map.mp hS
  obtain ⟨fnameL, _, hfL⟩ := List.mem_map.mp hL
  have hmS : rowS.missing =
      ((checks.filter (fun c => c.2.1 == "mandatory")).map Prod.fst).filter
        (fun n => !(alookup ((alookup results fnameS).getD []) n == some "Present")) := by
    rw [← hfS]
  have hmL : rowL.missing =
      (fieldNames.filter (fun fn => getFieldObligation fn == "mandatory")).filter
        (fun fn => pyStrip ((alookup ((alookup allData fnameL).getD []) fn).getD "") == "") := by
    rw [← hfL]
  refine ⟨?_, ?_, ?_⟩
  · rw [hmS]; exact List.filter_sublist _
  · rw [hmL]; exact List.filter_sublist _
  · intro hsorted
    have hsub : rowL.missing.Sublist fieldNames := by
      rw [hmL]
      exact (List.filter_sublist _).trans (List.filter_sublist _)
    exact hsorted.sublist hsub

/-- Default rows used to name concrete rows of the evaluators' outputs. -/
def emptyStrictRow : StrictRow :=
  ⟨"", "", [], "", 0, 0, 0, 0⟩

/-- Default loose row. -/
def emptyLooseRow : LooseRow :=
  ⟨"", "", [], "", 0⟩

/-- Witness for C3 (amended) on a one-file strict batch whose file misses
every check and the concrete loose batch `c3AllData`. -/
theorem c3_amended_missing_list_order_witness :
    ((computeSummary [("f.xml", [])] conformanceChecks).headD emptyStrictRow).missing.Sublist
        ((conformanceChecks.filter (fun c => c.2.1 == "mandatory")).map Prod.fst) ∧
      (((computeCompliance c3AllData (sortedFieldNamesModel c3AllData)).getD 1
          emptyLooseRow).missing).Sublist
        ((sortedFieldNamesModel c3AllData).filter
          (fun fn => getFieldObligation fn == "mandatory")) ∧
      List.Pairwise (fun a b => pyStrLe a b = true)
        (((computeCompliance c3AllData (sortedFieldNamesModel c3AllData)).getD 1
          emptyLooseRow).missing) := by
  have h := c3_amended_missing_list_order [("f.xml", [])] conformanceChecks
    c3AllData (sortedFieldNamesModel c3AllData)
    ((computeSummary [("f.xml", [])] conformanceChecks).headD emptyStrictRow)
    ((computeCompliance c3AllData (sortedFieldNamesModel c3AllData)).getD 1 emptyLooseRow)
    (by decide) (by decide)
  exact ⟨h.1, h.2.1, h.2.2 (by decide)⟩

/-! ### C4: the loose compliance verdict -/

theorem pyStrip_empty : pyStrip "" = "" := by decide

theorem present_value_iff (flds : List (String × String)) (fn : String) :
    (pyStrip ((alookup flds fn).getD "") = "") ↔
      ¬(∃ v, alookup flds fn = some v ∧ pyStrip v ≠ "") := by
  cases h : alookup flds fn with
  | none =>
      simp only [h, Option.getD_none, pyStrip_empty]
      constructor
      · rintro - ⟨v, hv, -⟩
        cases hv
      · intro _
        trivial
  | some v =>
      simp only [h, Option.getD_some]
      constructor
      · intro he ⟨w, hw, hne⟩
        cases hw
        exact hne he
      · intro hne
        by_contra hnz
        exact hne ⟨v, rfl, hnz⟩

/-- C4: a row of the loose Conformance Evaluator's output is "Yes"-compliant
iff every mandatory field name among `field_names` is present in the file's
mapping with a value non-empty after stripping; every mandatory field that is
absent or strip-empty appears in the missing list; and when all mandatory
fields are present non-empty the missing list is empty.  Every batch entry
produces a row. -/
theorem c4_loose_compliance_verdict
    (allData : List (String × List (String × String))) (fieldNames : List String) :
    (∀ p ∈ allData, ∃ row ∈ computeCompliance allData fieldNames, row.filename = p.1) ∧
      (∀ row ∈ computeCompliance allData fieldNames, ∀ flds,
        alookup allData row.filename = some flds →
          ((row.compliantYN = "Yes" ↔
              ∀ fn ∈ fieldNames, getFieldObligation fn = "mandatory" →
                ∃ v, alookup flds fn = some v ∧ pyStrip v ≠ "") ∧
            (∀ fn ∈ fieldNames, getFieldObligation fn = "mandatory" →
              pyStrip ((alookup flds fn).getD "") = "" → fn ∈ row.missing) ∧
            ((∀ fn ∈ fieldNames, getFieldObligation fn = "mandatory" →
                ∃ v, alookup flds fn = some v ∧ pyStrip v ≠ "") → row.missing = []))) := by
  constructor
  · intro p hp
    refine ⟨_, List.mem_map.mpr ⟨p.1, mem_pySortedStr.mpr (List.mem_map.mpr ⟨p, hp, rfl⟩), rfl⟩, rfl⟩
  · intro row hrow flds hlk
    obtain ⟨fname, -, hf⟩ := List.mem_map.mp hrow
    have hfn : row.filename = fname := by rw [← hf]
    rw [hfn] at hlk
    have hmiss : row.missing =
        (fieldNames.filter (fun fn => getFieldObligation fn == "mandatory")).filter
          (fun fn => pyStrip ((alookup flds fn).getD "") == "") := by
      rw [← hf]
      simp only [hlk, Option.getD_some]
    have hYN : row.compliantYN = if row.missing.length == 0 then "Yes" else "No" := by
      rw [← hf]
    refine ⟨?_, ?_, ?_⟩
    · rw [hYN]
      constructor
      · intro hyes fn hfn hman
        by_contra hmiss2
        have hin : fn ∈ row.missing := by
          rw [hmiss]
          refine List.mem_filter.mpr ⟨List.mem_filter.mpr ⟨hfn, by simp [hman]⟩, ?_⟩
          simp only [beq_iff_eq]
          exact (present_value_iff flds fn).mpr hmiss2
        have hne : row.missing ≠ [] := fun hnil => by
          rw [hnil] at hin; cases hin
        have hlen0 : (row.missing.length == 0) = false := by
          rw [beq_eq_false_iff_ne]
          exact fun h0 => hne (List.length_eq_zero.mp h0)
        rw [hlen0] at hyes
        simp at hyes
      · intro hall
        have : row.missing = [] := by
          rw [hmiss]
          apply List.filter_eq_nil_iff.mpr
          intro fn hfn2
          obtain ⟨hfn3, hman⟩ := List.mem_filter.mp hfn2
          simp only [beq_iff_eq]
          intro hstrip
          exact (present_value_iff flds fn).mp hstrip
            (hall fn hfn3 (by simpa using hman))
        rw [this]
        rfl
    · intro fn hfn hman hstrip
      rw [hmiss]
      refine List.mem_filter.mpr ⟨List.mem_filter.mpr ⟨hfn, by simp [hman]⟩, by simp [hstrip]⟩
    · intro hall
      rw [hmiss]
      apply List.filter_eq_nil_iff.mpr
      intro fn hfn2
      obtain ⟨hfn3, hman⟩ := List.mem_filter.mp hfn2
      simp only [beq_iff_eq]
      intro hstrip
      exact (present_value_iff flds fn).mp hstrip (hall fn hfn3 (by simpa using hman))

/-- Witness for C4 on the concrete batch `c3AllData`: `b.xml`'s row (index 1
in sorted filename order) is non-compliant with "Abstract" listed missing. -/
theorem c4_loose_compliance_verdict_witness :
    ((computeCompliance c3AllData (sortedFieldNamesModel c3AllData)).getD 1
        emptyLooseRow).compliantYN = "No" ∧
      "Abstract" ∈ ((computeCompliance c3AllData (sortedFieldNamesModel c3AllData)).getD 1
        emptyLooseRow).missing := by
  have h := (c4_loose_compliance_verdict c3AllData (sortedFieldNamesModel c3AllData)).2
    ((computeCompliance c3AllData (sortedFieldNamesModel c3AllData)).getD 1 emptyLooseRow)
    (by decide) [("Creation Date", "2020")] (by decide)
  exact ⟨by decide, h.2.1 "Abstract" (by decide) (by decide) (by decide)⟩

/-! ### Lemmas on Python-dict folds, for the strict checker claims -/

theorem alookup_append {α β : Type} [BEq α] (l1 l2 : List (α × β)) (k : α) :
    alookup (l1 ++ l2) k =
      match alookup l1 k with
      | some v => some v
      | none => alookup l2 k := by
  induction l1 with
  | nil => simp [alookup]
  | cons p rest ih =>
      obtain ⟨k', v'⟩ := p
      rw [List.cons_append, alookup, alookup]
      by_cases h : (k' == k) = true
      · rw [if_pos h, if_pos h]
      · rw [if_neg h, if_neg h]
        exact ih

theorem dictInsert_eq_append_of_none {α β : Type} [BEq α]
    {l : List (α × β)} {k : α} (v : β) (h : alookup l k = none) :
    dictInsert l k v = l ++ [(k, v)] := by
  induction l with
  | nil => rfl
  | cons p rest ih =>
      obtain ⟨k', v'⟩ := p
      rw [alookup] at h
      rw [dictInsert]
      by_cases hk : (k' == k) = true
      · rw [if_pos hk] at h
        cases h
      · rw [if_neg hk] at h
        rw [if_neg hk, List.cons_append, ih h]

theorem eq_of_mem_nodup_keys {α β : Type} [BEq α] [LawfulBEq α]
    {l : List (α × β)} {p q : α × β}
    (hnd : (l.map Prod.fst).Nodup) (hp : p ∈ l) (hq : q ∈ l) (hk : p.1 = q.1) :
    p = q := by
  have h1 : alookup l p.1 = some p.2 := alookup_of_mem_nodup hnd (by
    obtain ⟨a, b⟩ := p; exact hp)
  have h2 : alookup l q.1 = some q.2 := alookup_of_mem_nodup hnd (by
    obtain ⟨a, b⟩ := q; exact hq)
  rw [hk] at h1
  rw [h1] at h2
  obtain ⟨a, b⟩ := p
  obtain ⟨c, d⟩ := q
  simp only at hk
  cases Option.some.inj h2
  rw [hk]

theorem foldl_dictInsert_eq_append (f : ConfCheck → String) :
    ∀ (checks : List ConfCheck) (acc : List (String × String)),
      (checks.map (fun c => c.1)).Nodup →
      (∀ chk ∈ checks, alookup acc chk.1 = none) →
      checks.foldl (fun res chk => dictInsert res chk.1 (f chk)) acc =
        acc ++ checks.map (fun chk => (chk.1, f chk)) := by
  intro checks
  induction checks with
  | nil => intro acc _ _; simp
  | cons c cs ih =>
      intro acc hnd hdisj
      rw [List.foldl_cons,
        dictInsert_eq_append_of_none (f c) (hdisj c (List.mem_cons_self _ _))]
      rw [ih (acc ++ [(c.1, f c)]) (List.nodup_cons.mp (by simpa using hnd)).2 ?_]
      · simp
      · intro chk hchk
        rw [alookup_append, hdisj chk (List.mem_cons_of_mem _ hchk)]
        have hne : (c.1 == chk.1) = false := by
          rw [beq_eq_false_iff_ne]
          intro heq
          have : chk.1 ∈ cs.map (fun c => c.1) :=
            List.mem_map.mpr ⟨chk, hchk, rfl⟩
          rw [← heq] at this
          exact (List.nodup_cons.mp (by simpa using hnd)).1 this
        simp [alookup, hne]

/-- `check_one_file` on an accepted root evaluates every check in order. -/
theorem checkOneFile_accepted (root : XmlElem) (checks : List ConfCheck)
    (hroot : root.tag = clark GMD "MD_Metadata")
    (hnd : (checks.map (fun c => c.1)).Nodup) :
    checkOneFile (some root) checks =
      some (checks.map (fun chk => (chk.1, finderResult chk root))) := by
  rw [checkOneFile]
  rw [if_neg (by simp [hroot])]
  rw [foldl_dictInsert_eq_append (fun chk => finderResult chk root) checks []
    hnd (by intro chk _; rfl)]
  simp

/-! ### C10: totality and codomain of the strict classification -/

/-- The three-value codomain of the strict per-check classification. -/
def isPEA (s : String) : Prop :=
  s = "Present" ∨ s = "Empty" ∨ s = "Absent"

theorem pea_checkSingle (paths : List (List (String × String))) (root : XmlElem) :
    isPEA (checkSingle paths root) := by
  rw [checkSingle]
  repeat' split
  all_goals simp [isPEA]

theorem pea_checkBboxGo (root : XmlElem) (comps : List String) :
    isPEA (checkBboxGo root comps) := by
  induction comps with
  | nil => simp [checkBboxGo, isPEA]
  | cons c cs ih =>
      rw [checkBboxGo]
      split
      · simp [isPEA]
      · split
        · exact ih
        · simp [isPEA]

theorem pea_checkBbox (root : XmlElem) : isPEA (checkBbox root) :=
  pea_checkBboxGo root bboxComps

theorem pea_checkKeywords (root : XmlElem) : isPEA (checkKeywords root) := by
  rw [checkKeywords]
  repeat' split
  all_goals simp [isPEA]

theorem pea_checkUseLimitation (root : XmlElem) : isPEA (checkUseLimitation root) := by
  rw [checkUseLimitation]
  repeat' split
  all_goals simp [isPEA]

theorem pea_checkAccessConstraints (root : XmlElem) : isPEA (checkAccessConstraints root) := by
  rw [checkAccessConstraints]
  split
  · simp [isPEA]
  · simp only []
    split_ifs <;> simp [isPEA]

theorem pea_checkOtherConstraints (root : XmlElem) : isPEA (checkOtherConstraints root) := by
  rw [checkOtherConstraints]
  repeat' split
  all_goals simp [isPEA]

theorem pea_checkDistributionLinkage (root : XmlElem) :
    isPEA (checkDistributionLinkage root) := by
  rw [checkDistributionLinkage]
  repeat' split
  all_goals simp [isPEA]

theorem pea_checkConformanceSpecAndPass (root : XmlElem) :
    isPEA (checkConformanceSpecAndPass root) := by
  rw [checkConformanceSpecAndPass]
  repeat' split
  all_goals simp [isPEA]

/-- Every catalogued finder returns one of the three classification values. -/
theorem conformanceChecks_pea :
    ∀ chk ∈ conformanceChecks, ∀ (root : XmlElem) (v : String),
      chk.2.2 root = .ok v → isPEA v := by
  intro chk hchk root v hv
  fin_cases hchk <;>
    (cases hv;
     first
      | exact pea_checkSingle _ _
      | exact pea_checkBbox _
      | exact pea_checkKeywords _
      | exact pea_checkUseLimitation _
      | exact pea_checkAccessConstraints _
      | exact pea_checkOtherConstraints _
      | exact pea_checkDistributionLinkage _
      | exact pea_checkConformanceSpecAndPass _)

/-- The 32 catalogued check names are pairwise distinct. -/
theorem conformanceChecks_names_nodup :
    (conformanceChecks.map (fun c => c.1)).Nodup := by
  decide

/-- C10: for every document accepted by the strict checker, `check_one_file`
classifies every catalogued check (the result's keys are exactly the catalog
names, in catalog order), and every recorded value is one of "Present",
"Empty", "Absent". -/
theorem c10_strict_classification_total (root : XmlElem)
    (hroot : root.tag = clark GMD "MD_Metadata") :
    ∃ m, checkOneFile (some root) conformanceChecks = some m ∧
      m.map Prod.fst = conformanceChecks.map (fun c => c.1) ∧
      ∀ p ∈ m, p.2 = "Present" ∨ p.2 = "Empty" ∨ p.2 = "Absent" := by
  refine ⟨conformanceChecks.map (fun chk => (chk.1, finderResult chk root)), ?_, ?_, ?_⟩
  · exact checkOneFile_accepted root conformanceChecks hroot conformanceChecks_names_nodup
  · simp
  · intro p hp
    obtain ⟨chk, hchk, hpe⟩ := List.mem_map.mp hp
    rw [← hpe]
    show isPEA (finderResult chk root)
    rw [finderResult]
    cases hres : chk.2.2 root with
    | ok v => exact conformanceChecks_pea chk hchk root v hres
    | error e => simp [isPEA]

/-- A minimal accepted document: the bare namespaced root. -/
def trivialRoot : XmlElem :=
  .mk (clark GMD "MD_Metadata") none [] none

/-- Witness for C10 at the bare accepted root: the classification is defined,
covers all 32 catalog names, and stays within the three-value set. -/
theorem c10_strict_classification_total_witness :
    (checkOneFile (some trivialRoot) conformanceChecks).isSome = true ∧
      ((checkOneFile (some trivialRoot) conformanceChecks).getD []).map Prod.fst =
        conformanceChecks.map (fun c => c.1) ∧
      (((checkOneFile (some trivialRoot) conformanceChecks).getD []).all
        (fun p => p.2 == "Present" || p.2 == "Empty" || p.2 == "Absent")) = true := by
  obtain ⟨m, h1, h2, h3⟩ := c10_strict_classification_total trivialRoot rfl
  rw [h1]
  refine ⟨rfl, by simpa using h2, ?_⟩
  apply List.all_eq_true.mpr
  intro p hp
  rcases h3 p (by simpa using hp) with h | h | h <;> simp [h]

/-! ### C8: a raising finder is recorded as "Absent" and never propagates -/

/-- C8: for an accepted document and any check list with distinct names, a
check whose finder raises is recorded as "Absent", while `check_one_file`
still returns a complete mapping covering every check — the exception is
absorbed at per-check granularity and never aborts the document. -/
theorem c8_finder_exception_isolated
    (checks : List ConfCheck) (root : XmlElem)
    (hroot : root.tag = clark GMD "MD_Metadata")
    (hnd : (checks.map (fun c => c.1)).Nodup)
    (name obl : String) (f : XmlElem → Except Unit String)
    (hmem : (name, obl, f) ∈ checks)
    (e : Unit) (herr : f root = .error e) :
    ∃ m, checkOneFile (some root) checks = some m ∧
      alookup m name = some "Absent" ∧
      m.map Prod.fst = checks.map (fun c => c.1) ∧
      ∀ (n2 o2 : String) (f2 : XmlElem → Except Unit String) (v : String),
        (n2, o2, f2) ∈ checks → f2 root = .ok v → alookup m n2 = some v := by
  have hndm : ((checks.map (fun chk => (chk.1, finderResult chk root))).map Prod.fst).Nodup := by
    simp only [List.map_map]
    exact hnd
  refine ⟨checks.map (fun chk => (chk.1, finderResult chk root)), ?_, ?_, ?_, ?_⟩
  · exact checkOneFile_accepted root checks hroot hnd
  · have hmm : (name, "Absent") ∈ checks.map (fun chk => (chk.1, finderResult chk root)) := by
      apply List.mem_map.mpr
      refine ⟨(name, obl, f), hmem, ?_⟩
      simp only [finderResult, herr]
    exact alookup_of_mem_nodup hndm hmm
  · simp
  · intro n2 o2 f2 v hmem2 hok
    have hmm : (n2, v) ∈ checks.map (fun chk => (chk.1, finderResult chk root)) := by
      apply List.mem_map.mpr
      refine ⟨(n2, o2, f2), hmem2, ?_⟩
      simp only [finderResult, hok]
    exact alookup_of_mem_nodup hndm hmm

/-- A two-check catalog whose second finder raises. -/
def c8Checks : List ConfCheck :=
  [("Good", "mandatory", fun _ => .ok "Present"),
   ("Bad", "optional", fun _ => .error ())]

/-- Witness for C8: with `c8Checks` against the bare accepted root, the
raising "Bad" check is recorded "Absent", the "Good" check is unaffected and
both checks are present in the result. -/
theorem c8_finder_exception_isolated_witness :
    checkOneFile (some trivialRoot) c8Checks = some [("Good", "Present"), ("Bad", "Absent")] ∧
      alookup [("Good", "Present"), ("Bad", "Absent")] "Bad" = some "Absent" ∧
      alookup [("Good", "Present"), ("Bad", "Absent")] "Good" = some "Present" ∧
      [("Good", "Present"), ("Bad", "Absent")].map Prod.fst = c8Checks.map (fun c => c.1) := by
  obtain ⟨m, h1, h2, h3, h4⟩ := c8_finder_exception_isolated c8Checks trivialRoot rfl
    (by decide) "Bad" "optional" (fun _ => .error ())
    (List.mem_cons_of_mem _ (List.mem_cons_self _ _)) () rfl
  have hm : m = [("Good", "Present"), ("Bad", "Absent")] :=
    Option.some.inj (h1.symm.trans (rfl :
      checkOneFile (some trivialRoot) c8Checks = some [("Good", "Present"), ("Bad", "Absent")]))
  have h5 := h4 "Good" "mandatory" (fun _ => .ok "Present") "Present"
    (List.mem_cons_self _ _) rfl
  rw [hm] at h1 h2 h3 h5
  exact ⟨h1, h2, h5, h3⟩

/-! ### C7: dialect skip in the strict batch driver -/

/-- The per-file outcomes of the `process_folder` loop, as a pair filter:
files whose `check_one_file` result is defined land in `results`, the rest in
`errors`. -/
theorem processFolder_go_spec (checks : List ConfCheck) :
    ∀ (files : List (String × Option XmlElem))
      (acc : List (String × List (String × String)) × List (String × String)),
      (∀ p ∈ files, alookup acc.1 p.1 = none) →
      ((files.map Prod.fst).Nodup) →
      (files.foldl
          (fun acc file =>
            match checkOneFile file.2 checks with
            | none => (acc.1, acc.2 ++ [(file.1, skipReason)])
            | some row => (dictInsert acc.1 file.1 row, acc.2)) acc).1.map Prod.fst =
          acc.1.map Prod.fst ++
            (files.filter (fun p => (checkOneFile p.2 checks).isSome)).map Prod.fst ∧
        (files.foldl
          (fun acc file =>
            match checkOneFile file.2 checks with
            | none => (acc.1, acc.2 ++ [(file.1, skipReason)])
            | some row => (dictInsert acc.1 file.1 row, acc.2)) acc).2 =
          acc.2 ++
            (files.filter (fun p => !(checkOneFile p.2 checks).isSome)).map
              (fun p => (p.1, skipReason)) := by
  intro files
  induction files with
  | nil => intro acc _ _; simp
  | cons p ps ih =>
      intro acc hdisj hnd
      rw [List.foldl_cons]
      cases hc : checkOneFile p.2 checks with
      | none =>
          have hstep := ih (acc.1, acc.2 ++ [(p.1, skipReason)])
            (by intro q hq; exact hdisj q (List.mem_cons_of_mem _ hq))
            (by simpa using (List.nodup_cons.mp (by simpa using hnd)).2)
          refine ⟨?_, ?_⟩
          · rw [hstep.1]
            simp [List.filter_cons, hc]
          · rw [hstep.2]
            simp [List.filter_cons, hc]
      | some row =>
          have hins : dictInsert acc.1 p.1 row = acc.1 ++ [(p.1, row)] :=
            dictInsert_eq_append_of_none row (hdisj p (List.mem_cons_self _ _))
          have hstep := ih (dictInsert acc.1 p.1 row, acc.2) ?_ ?_
          · refine ⟨?_, ?_⟩
            · rw [hstep.1]
              simp only [hins]
              simp [List.filter_cons, hc]
            · rw [hstep.2]
              simp [List.filter_cons, hc]
          · intro q hq
            rw [hins, alookup_append, hdisj q (List.mem_cons_of_mem _ hq)]
            have hne : (p.1 == q.1) = false := by
              rw [beq_eq_false_iff_ne]
              intro heq
              have : q.1 ∈ ps.map Prod.fst := List.mem_map.mpr ⟨q, hq, rfl⟩
              rw [← heq] at this
              exact (List.nodup_cons.mp (by simpa using hnd)).1 this
            simp [alookup, hne]
          · exact (List.nodup_cons.mp (by simpa using hnd)).2

/-- `check_one_file` rejects a root that is not `gmd:MD_Metadata`. -/
theorem checkOneFile_rejects (root : XmlElem) (checks : List ConfCheck)
    (hbad : root.tag ≠ clark GMD "MD_Metadata") :
    checkOneFile (some root) checks = none := by
  rw [checkOneFile]
  rw [if_pos hbad]

/-- C7: in the strict batch driver, a well-formed file whose root is not the
namespaced `gmd:MD_Metadata` gets no per-check classification; it is recorded
as a (filename, reason) skip entry, excluded from the results set, and every
other well-formed file with the expected root is still processed into the
results. -/
theorem c7_dialect_mismatch_skipped
    (files : List (String × Option XmlElem)) (checks : List ConfCheck)
    (name : String) (root : XmlElem)
    (hnd : (files.map Prod.fst).Nodup)
    (hmem : (name, some root) ∈ files)
    (hbad : root.tag ≠ clark GMD "MD_Metadata") :
    checkOneFile (some root) checks = none ∧
      (name, skipReason) ∈ (processFolder files checks).2 ∧
      name ∉ (processFolder files checks).1.map Prod.fst ∧
      ∀ (n2 : String) (r2 : XmlElem), (n2, some r2) ∈ files →
        r2.tag = clark GMD "MD_Metadata" →
        n2 ∈ (processFolder files checks).1.map Prod.fst := by
  have hnone : checkOneFile (some root) checks = none := checkOneFile_rejects root checks hbad
  have hspec := processFolder_go_spec checks files ([], []) (by intro q _; rfl) hnd
  rw [processFolder]
  refine ⟨hnone, ?_, ?_, ?_⟩
  · rw [hspec.2]
    simp only [List.nil_append]
    apply List.mem_map.mpr
    refine ⟨(name, some root), List.mem_filter.mpr ⟨hmem, by simp [hnone]⟩, rfl⟩
  · rw [hspec.1]
    simp only [List.nil_append]
    intro hin
    obtain ⟨q, hq, hq1⟩ := List.mem_map.mp hin
    have hqf := List.mem_filter.mp hq
    have hqe : q = (name, some root) :=
      eq_of_mem_nodup_keys hnd hqf.1 hmem hq1
    have hcontra := hqf.2
    rw [hqe] at hcontra
    simp only [hnone] at hcontra
    simp at hcontra
  · rw [hspec.1]
    intro n2 r2 hmem2 hgood
    simp only [List.nil_append]
    apply List.mem_map.mpr
    refine ⟨(n2, some r2), List.mem_filter.mpr ⟨hmem2, ?_⟩, rfl⟩
    rw [checkOneFile]
    rw [if_neg (by simp [hgood])]
    simp

/-- A well-formed root in the wrong (unnamespaced) dialect. -/
def c7BadRoot : XmlElem :=
  .mk "metadata" none [] none

/-- A three-file folder: an accepted file, a wrong-dialect file, and an
unparseable file. -/
def c7Files : List (String × Option XmlElem) :=
  [("good.xml", some trivialRoot), ("bad.xml", some c7BadRoot), ("broken.xml", none)]

/-- Witness for C7 on `c7Files`: the wrong-dialect file is skipped with the
reason string and excluded from results, while the accepted file is still
processed. -/
theorem c7_dialect_mismatch_skipped_witness :
    checkOneFile (some c7BadRoot) conformanceChecks = none ∧
      ("bad.xml", skipReason) ∈ (processFolder c7Files conformanceChecks).2 ∧
      "bad.xml" ∉ (processFolder c7Files conformanceChecks).1.map Prod.fst ∧
      "good.xml" ∈ (processFolder c7Files conformanceChecks).1.map Prod.fst := by
  have h := c7_dialect_mismatch_skipped c7Files conformanceChecks "bad.xml" c7BadRoot
    (by decide) (List.mem_cons_of_mem _ (List.mem_cons_self _ _)) (by decide)
  exact ⟨h.1, h.2.1, h.2.2.1, h.2.2.2 "good.xml" trivialRoot (List.mem_cons_self _ _) rfl⟩

end LandIS
